import Mathlib

/-!
Verification of the v800 orchestration engine (`src/services/super_orchestrator.py`)
and the social-search manager (`src/services/mcp_supadata_manager.py`).

The Python code is shallowly embedded: Python values become the inductive
type `PyVal`, Python dicts become insertion-ordered association lists,
fallible Python operations (attribute errors, key errors, type errors and
exceptions raised by external collaborators) become `Except String`
computations, and the orchestrator's external collaborators (the other
orchestrators, the persistence helpers `salvar_etapa` / `salvar_erro`, the
progress callback) are parameters supplied through the `Collab` structure.
Wall-clock readings and random draws are passed in as explicit parameters.
-/

set_option maxHeartbeats 1000000

namespace V800

/-- Embedded Python value: `None`, `bool`, `int`, `float` (as `ℚ`),
`str`, `list`, `dict` (insertion-ordered association list). -/
inductive PyVal where
  | none
  | bool (b : Bool)
  | int (n : Int)
  | rat (q : ℚ)
  | str (s : String)
  | list (xs : List PyVal)
  | dict (kvs : List (String × PyVal))
  deriving Repr

/-- A Python dict body: insertion-ordered key/value pairs. -/
abbrev PyDict := List (String × PyVal)

/-- First-match lookup in a dict body (Python dicts have unique keys;
we carry `Nodup` hypotheses in theorems where uniqueness matters). -/
def pyLookup : PyDict → String → Option PyVal
  | [], _ => Option.none
  | (k, v) :: tl, key => if k = key then some v else pyLookup tl key

/-- `d[k] = v` for a dict body: overwrite in place if the key exists,
append otherwise (Python insertion-order semantics). -/
def pyDictSet : PyDict → String → PyVal → PyDict
  | [], key, v => [(key, v)]
  | (k, w) :: tl, key, v =>
      if k = key then (k, v) :: tl else (k, w) :: pyDictSet tl key v

/-- `k in d` for a dict body. -/
def pyHasKey (d : PyDict) (k : String) : Bool :=
  (pyLookup d k).isSome

/-- Python truthiness. -/
def pyTruthy : PyVal → Bool
  | .none => false
  | .bool b => b
  | .int n => n != 0
  | .rat q => q != 0
  | .str s => s != ""
  | .list xs => !xs.isEmpty
  | .dict kvs => !kvs.isEmpty

mutual

/-- Python `str(x)`. -/
def pyStr : PyVal → String
  | .none => "None"
  | .bool b => if b then "True" else "False"
  | .int n => toString n
  | .rat q => toString q
  | .str s => s
  | .list xs => "[" ++ String.intercalate ", " (pyStrList xs) ++ "]"
  | .dict kvs => "\x7b" ++ String.intercalate ", " (pyStrKVs kvs) ++ "\x7d"

def pyStrList : List PyVal → List String
  | [] => []
  | v :: tl => pyStr v :: pyStrList tl

def pyStrKVs : List (String × PyVal) → List String
  | [] => []
  | (k, v) :: tl => (k ++ ": " ++ pyStr v) :: pyStrKVs tl

end

/-- Python `x.get(k, default)`: only dicts have `.get`; anything else
raises `AttributeError`. -/
def pyGetD : PyVal → String → PyVal → Except String PyVal
  | .dict kvs, k, dflt => .ok ((pyLookup kvs k).getD dflt)
  | _, _, _ => .error "AttributeError: object has no attribute get"

/-- Python `x.get(k)` (default `None`). -/
def pyGetN (x : PyVal) (k : String) : Except String PyVal :=
  pyGetD x k .none

/-- Python subscript `x[k]` with a string key: `KeyError` when the key is
absent, `TypeError` when `x` is not a dict. -/
def pyIndex : PyVal → String → Except String PyVal
  | .dict kvs, k =>
      match pyLookup kvs k with
      | some v => .ok v
      | Option.none => .error ("KeyError: " ++ k)
  | _, _ => .error "TypeError: object is not subscriptable"

/-- Python `len(x)`: sized types only. -/
def pyLen : PyVal → Except String Nat
  | .str s => .ok s.length
  | .list xs => .ok xs.length
  | .dict kvs => .ok kvs.length
  | _ => .error "TypeError: object has no len"

/-- Python `x < m` against an integer literal: numeric types compare,
anything else raises `TypeError` (`bool` is an `int` in Python). -/
def pyLtInt : PyVal → Int → Except String Bool
  | .int n, m => .ok (decide (n < m))
  | .rat q, m => .ok (decide (q < (m : ℚ)))
  | .bool b, m => .ok (decide ((if b then (1 : Int) else 0) < m))
  | _, _ => .error "TypeError: unsupported comparison"

/-- Python `d.update(x)` on a dict body `d`: merging a dict, or an
iterable of two-element key/value sequences; anything else raises. -/
def pyUpdate (d : PyDict) : PyVal → Except String PyDict
  | .dict kvs => .ok (kvs.foldl (fun acc kv => pyDictSet acc kv.1 kv.2) d)
  | .list xs =>
      xs.foldlM
        (fun acc x =>
          match x with
          | .list [.str k, v] => .ok (pyDictSet acc k v)
          | _ => .error "TypeError: cannot convert dictionary update sequence")
        d
  | _ => .error "TypeError: object is not iterable"

/-- Python `x.items()`: dicts only. -/
def pyItems : PyVal → Except String PyDict
  | .dict kvs => .ok kvs
  | _ => .error "AttributeError: object has no attribute items"

end V800

namespace V800

/-! ## `super_orchestrator.py`: data model

`SessRec` is one entry of `self.execution_state` (created at run start,
mutated under `self.sync_lock`); `St` is the whole mapping.  `Ev` is an
observation trace of the run: session-status writes (tagged with whether
the source wraps them in `sync_lock`), persistence calls, and invocations
of the master / enhanced orchestrators. -/

/-- One record of `execution_state`:
`{'status', 'start_time', 'components_completed', 'errors'}` plus the
`execution_time` / `error` fields added on completion / failure. -/
structure SessRec where
  status : String
  startTime : Nat
  componentsCompleted : List String
  errors : List String
  executionTime : Option Nat
  errorMsg : Option String
  deriving Repr, DecidableEq

/-- The `execution_state` mapping. -/
abbrev St := List (String × SessRec)

/-- `execution_state[sid] = rec` (overwrite or append). -/
def stSet : St → String → SessRec → St
  | [], sid, r => [(sid, r)]
  | (k, w) :: tl, sid, r =>
      if k = sid then (k, r) :: tl else (k, w) :: stSet tl sid r

/-- Read `execution_state.get(sid)`. -/
def stGet : St → String → Option SessRec
  | [], _ => Option.none
  | (k, w) :: tl, sid => if k = sid then some w else stGet tl sid

/-- In-place mutation `execution_state[sid] = f(execution_state[sid])`;
`KeyError` if the session id is absent. -/
def stMark (st : St) (sid : String) (f : SessRec → SessRec) : Except String St :=
  match st with
  | [] => .error ("KeyError: " ++ sid)
  | (k, w) :: tl =>
      if k = sid then .ok ((k, f w) :: tl)
      else (stMark tl sid f).map (fun tl2 => (k, w) :: tl2)

/-- Observation trace events of one orchestrator run. -/
inductive Ev where
  /-- A write of `execution_state[sid]['status']`; `locked` records whether
  the source performs it inside `with self.sync_lock`. -/
  | status (sid st : String) (locked : Bool)
  /-- A `salvar_etapa(name, ...)` call. -/
  | etapa (name : String)
  /-- A `salvar_erro(name, ...)` call. -/
  | erro (name : String)
  /-- `master_orchestrator.execute_comprehensive_analysis` was invoked. -/
  | master
  /-- `enhanced_orchestrator.execute_ultra_enhanced_analysis` was invoked. -/
  | enhanced
  /-- Phase 3 finished with this value as `final_results`. -/
  | phase3Done (finalResults : PyVal)
  deriving Repr

/-- External collaborators of `execute_synchronized_analysis`, each
modelled as a possibly-raising computation. -/
structure Collab where
  salvarEtapa : String → PyVal → Except String Unit
  salvarErro : String → String → Except String Unit
  aiStatus : Except String PyVal
  executeComponents : Except String PyVal
  masterAnalysis : Except String PyVal
  enhancedAnalysis : PyVal → Except String PyVal
  progressCb : Option (Nat → String → Except String Unit)

/-- `if progress_callback: progress_callback(i, msg)`. -/
def callCb (pcb : Option (Nat → String → Except String Unit)) (i : Nat) (m : String) :
    Except String Unit :=
  match pcb with
  | Option.none => .ok ()
  | some f => f i m

/-- `service_status in ['available', 'ready']`. -/
def svAvailable : PyVal → Bool
  | .str s => s = "available" || s = "ready"
  | _ => false

/-- `_check_all_services_status`: AI-provider status is fetched in a local
`try` (errors become `{'error': str(e)}`), the four search engines are
tagged `available`, the extractors are fixed, and `overall_health` is
derived from the fraction of `available`/`ready` entries over all dict
categories. -/
def checkAllServicesStatus (aiSt : Except String PyVal) : PyVal :=
  let aiVal : PyVal :=
    match aiSt with
    | .ok v => v
    | .error e => .dict [("error", .str e)]
  let engines : PyVal := .dict [("exa", .str "available"), ("google", .str "available"),
    ("serper", .str "available"), ("bing", .str "available")]
  let extractors : PyVal := .dict [("jina_reader", .str "needs_key"),
    ("basic_extraction", .str "available")]
  let status : PyDict := [("ai_providers", aiVal), ("search_engines", engines),
    ("content_extractors", extractors), ("social_platforms", .dict []),
    ("overall_health", .str "unknown")]
  let counts : Nat × Nat := status.foldl
    (fun acc kv =>
      if kv.1 ≠ "overall_health" then
        match kv.2 with
        | .dict kvs =>
            (acc.1 + kvs.length, acc.2 + (kvs.filter (fun sv => svAvailable sv.2)).length)
        | _ => acc
      else acc)
    (0, 0)
  let health : String :=
    if 0 < counts.1 then
      let hp : ℚ := ((counts.2 : ℚ) / (counts.1 : ℚ)) * 100
      if hp ≥ 70 then "excellent"
      else if hp ≥ 50 then "good"
      else if hp ≥ 30 then "fair"
      else "poor"
    else "unknown"
  .dict (pyDictSet status "overall_health" (.str health))

/-- `{**data, **v}`: the right operand must itself be a mapping. -/
def pyUnionD (d : PyDict) : PyVal → Except String PyDict
  | .dict kvs => .ok (kvs.foldl (fun acc kv => pyDictSet acc kv.1 kv.2) d)
  | _ => .error "TypeError: argument after ** must be a mapping"

/-- `_combine_orchestrator_results`, step 1: seed `final_components` from
the strict executor's truthy `successful_components`
(`final_components.update(...)` on an empty dict). -/
def combineFc1 (cr : PyVal) : Except String PyDict := do
  let sc ← pyGetN cr "successful_components"
  if pyTruthy sc then do
    let scv ← pyIndex cr "successful_components"
    pyUpdate [] scv
  else pure ([] : PyDict)

/-- `_combine_orchestrator_results`, step 2: fill the names missing from
`final_components` out of the master orchestrator's truthy `components`. -/
def combineFc2 (mr : PyVal) (fc1 : PyDict) : Except String PyDict := do
  let mc ← pyGetN mr "components"
  if pyTruthy mc then do
    let mcv ← pyIndex mr "components"
    let items ← pyItems mcv
    pure (items.foldl
      (fun acc kv => if pyHasKey acc kv.1 then acc else pyDictSet acc kv.1 kv.2) fc1)
  else pure fc1

/-- `_combine_orchestrator_results`: successful strict components take
precedence, master components fill the names missing from them. -/
def combineOrchestratorResults (cr mr data : PyVal) (sid : String) :
    Except String PyVal := do
  let fc1 ← combineFc1 cr
  let fc2 ← combineFc2 mr fc1
  pure (.dict (pyDictSet
    [("component_results", cr), ("master_results", mr),
     ("combination_strategy", .str "hybrid"), ("session_id", .str sid)]
    "final_components" (.dict fc2)))

/-- `_enhance_component_results`: tags the strict result, copying over its
successful components and success rate when present. -/
def enhanceComponentResults (cr data : PyVal) (sid : String) : Except String PyVal := do
  let e0 : PyDict := [("base_results", cr), ("enhancement_applied", .bool true),
    ("session_id", .str sid)]
  let sc ← pyGetN cr "successful_components"
  if pyTruthy sc then do
    let scv ← pyIndex cr "successful_components"
    let es ← pyIndex cr "execution_stats"
    let sr ← pyIndex es "success_rate"
    pure (.dict (pyDictSet (pyDictSet e0 "components" scv) "success_rate" sr))
  else pure (.dict e0)

/-- `_merge_enhanced_results`: copies the base dict and layers the
enhanced analysis on top when the latter is truthy. -/
def mergeEnhancedResults (base er : PyVal) : Except String PyVal :=
  match base with
  | .dict kvs =>
      if pyTruthy er then do
        let kvs1 := pyDictSet kvs "enhanced_analysis" er
        let pi ← pyGetD er "psychological_insights" (.dict [])
        let kvs2 := pyDictSet kvs1 "psychological_insights" pi
        let av ← pyGetD er "ultra_detailed_avatar" (.dict [])
        pure (.dict (pyDictSet kvs2 "ultra_detailed_avatar" av))
      else pure (.dict kvs)
  | _ => .error "AttributeError: object has no attribute copy"

/-- The `components` / `final_components` selection of
`_consolidate_all_results`. -/
def consolidateSelect (results : PyVal) : Except String PyVal := do
  let c0 ← pyGetD results "components" (.dict [])
  let fcv ← pyGetN results "final_components"
  if !pyTruthy c0 && pyTruthy fcv then pyIndex results "final_components"
  else pure c0

/-- `_consolidate_all_results` (continued): see `consolidateSelect` for
the `components` / `final_components` selection. -/
def consolidateAllResults (results serviceStatus : PyVal) (sid ts : String) :
    Except String PyVal := do
  let consolidated : PyDict := [("session_id", .str sid), ("timestamp", .str ts),
    ("service_status", serviceStatus), ("analysis_results", results),
    ("consolidation_version", .str "2.0")]
  let components ← consolidateSelect results
  let cons1 := pyDictSet consolidated "components" components
  let n ← pyLen components
  let items ← pyItems components
  let succ : Int ← items.foldlM
    (fun acc kv => do
      let ev ← pyGetN kv.2 "error"
      pure (if pyTruthy ev then acc else acc + 1))
    (0 : Int)
  let health ← pyGetD serviceStatus "overall_health" (.str "unknown")
  pure (.dict (pyDictSet cons1 "metrics" (.dict
    [("total_components", .int (n : Int)), ("successful_components", .int succ),
     ("service_health", health)])))

end V800

namespace V800

/-- A placeholder driver entry of `_generate_emergency_fallback`. -/
def fallbackDriver (i : Nat) : PyVal :=
  .dict [("numero", .int ((i : Int) + 1)),
    ("nome", .str ("Driver " ++ toString (i + 1))),
    ("descricao", .str "Fallback")]

/-- The eight component names registered in `_register_all_components`. -/
def expectedComponents : List String :=
  ["web_search", "social_analysis", "mental_drivers", "visual_proofs",
   "anti_objection", "pre_pitch", "future_predictions", "avatar_detalhado"]

/-- The placeholder components of `_generate_emergency_fallback`. -/
def emergencyComponents : PyDict :=
  [("web_search", .dict [("error", .str "Falha na pesquisa web")]),
   ("social_analysis", .dict [("error", .str "Falha na análise social")]),
   ("mental_drivers", .dict [("drivers", .list ((List.range 19).map fallbackDriver))]),
   ("visual_proofs", .dict [("error", .str "Falha nas provas visuais")]),
   ("anti_objection", .dict [("error", .str "Falha no sistema anti-objeção")]),
   ("pre_pitch", .dict [("error", .str "Falha no pré-pitch")]),
   ("future_predictions", .dict [("error", .str "Falha nas predições")]),
   ("avatar_detalhado", .dict [("error", .str "Falha no avatar detalhado")])]

/-- `_generate_emergency_fallback`: the hand-built envelope returned after
a critical failure.  Note it nests the placeholder components under the
key `fallback_report`, not `report`. -/
def emergencyFallbackKvs (data : PyDict) (sid : String) : PyDict :=
  [("success", .bool false), ("session_id", .str sid),
   ("error", .str "Falha crítica no Super Orchestrator"),
   ("fallback_report", .dict [
     ("segmento", (pyLookup data "segmento").getD (.str "Não especificado")),
     ("produto", (pyLookup data "produto").getD (.str "Não especificado")),
     ("status", .str "Análise básica de emergência"),
     ("components", .dict emergencyComponents)]),
   ("sync_status", .str "EMERGENCY_FALLBACK")]

/-- `_generate_emergency_fallback` as a Python value. -/
def emergencyFallback (data : PyDict) (sid : String) : PyVal :=
  .dict (emergencyFallbackKvs data sid)

/-- The per-component `salvar_etapa` loop of `_save_to_all_categories`. -/
def saveComponents (c : Collab) : PyDict → List Ev × Except String Unit
  | [] => ([], .ok ())
  | (k, v) :: tl =>
      match c.salvarEtapa ("componente_" ++ k ++ "_final") v with
      | .error e => ([.etapa ("componente_" ++ k ++ "_final")], .error e)
      | .ok _ =>
          (Ev.etapa ("componente_" ++ k ++ "_final") :: (saveComponents c tl).1,
            (saveComponents c tl).2)

/-- The per-component block of `_save_to_all_categories`
(`if report.get('components'): for ...`). -/
def saveCompsStep (c : Collab) (report comps : PyVal) : List Ev × Except String Unit :=
  if pyTruthy comps then
    match (do
        let cv ← pyIndex report "components"
        pyItems cv : Except String PyDict) with
    | .error e => ([], .error e)
    | .ok items => saveComponents c items
  else ([], .ok ())

/-- The metrics block of `_save_to_all_categories`
(`if report.get('metrics'): salvar_etapa("metricas_finais", ...)`). -/
def saveMetricsStep (c : Collab) (report : PyVal) : List Ev × Except String Unit :=
  match pyGetN report "metrics" with
  | .error e => ([], .error e)
  | .ok mets =>
    if pyTruthy mets then
      match pyIndex report "metrics" with
      | .error e => ([], .error e)
      | .ok mv =>
        match c.salvarEtapa "metricas_finais" mv with
        | .error e => ([.etapa "metricas_finais"], .error e)
        | .ok _ => ([.etapa "metricas_finais"], .ok ())
    else ([], .ok ())

/-- The `try` body of `_save_to_all_categories`. -/
def saveBody (c : Collab) (report : PyVal) : List Ev × Except String Unit :=
  match c.salvarEtapa "relatorio_final_consolidado" report with
  | .error e => ([.etapa "relatorio_final_consolidado"], .error e)
  | .ok _ =>
    match pyGetN report "components" with
    | .error e => ([Ev.etapa "relatorio_final_consolidado"], .error e)
    | .ok comps =>
      match saveCompsStep c report comps with
      | (evs, .error e) => (Ev.etapa "relatorio_final_consolidado" :: evs, .error e)
      | (evs, .ok _) =>
        match saveMetricsStep c report with
        | (evs2, r) => (Ev.etapa "relatorio_final_consolidado" :: (evs ++ evs2), r)

/-- `_save_to_all_categories`: any failure of the body is caught and
forwarded to `salvar_erro` — which may itself raise. -/
def saveToAllCategories (c : Collab) (report : PyVal) (sid : String) :
    List Ev × Except String Unit :=
  match saveBody c report with
  | (evs, .ok _) => (evs, .ok ())
  | (evs, .error e) =>
      match c.salvarErro "erro_salvamento_relatorio" e with
      | .ok _ => (evs ++ [.erro "erro_salvamento_relatorio"], .ok ())
      | .error e2 => (evs ++ [.erro "erro_salvamento_relatorio"], .error e2)

/-- The `try` body of FASE 4 of `execute_synchronized_analysis`: the
enhanced-orchestrator pass covering the collaborator call and the merge
(the `except` logs through `salvar_erro` — which may itself raise — and
keeps `final_results` unchanged). -/
def phase4Body (c : Collab) (data : PyDict) (final : PyVal) :
    List Ev × Except String PyVal :=
  match pyUnionD data final with
  | .error e => ([], .error e)
  | .ok merged =>
    match c.enhancedAnalysis (.dict merged) with
    | .error e => ([.enhanced], .error e)
    | .ok er =>
      match mergeEnhancedResults final er with
      | .error e => ([.enhanced], .error e)
      | .ok f2 => ([.enhanced], .ok f2)

/-- FASE 4 proper: `phase4Body` inside its `except`. -/
def phase4 (c : Collab) (data : PyDict) (final : PyVal) :
    List Ev × Except String PyVal :=
  match phase4Body c data final with
  | (evs, .ok f2) => (evs, .ok f2)
  | (evs, .error e) =>
      match c.salvarErro "enhanced_orchestrator_error" e with
      | .ok _ => (evs ++ [.erro "enhanced_orchestrator_error"], .ok final)
      | .error e2 => (evs ++ [.erro "enhanced_orchestrator_error"], .error e2)

/-- Names wired in `self.orchestrators`. -/
def orchestratorNames : List String :=
  ["master", "component", "enhanced", "search_coordinator", "production_search"]

/-- Names wired in `self.services`. -/
def serviceNames : List String :=
  ["ai_manager", "content_extractor", "mental_drivers", "visual_proofs",
   "anti_objection", "pre_pitch", "future_prediction", "supadata", "websailor"]

/-- The record written to `execution_state[session_id]` at run start:
`{'status': 'running', 'start_time': ..., 'components_completed': [],
'errors': []}`. -/
def initialSessRec (startTime : Nat) : SessRec :=
  { status := "running", startTime := startTime, componentsCompleted := [],
    errors := [], executionTime := Option.none, errorMsg := Option.none }

/-- The payload persisted by the initial
`salvar_etapa("super_orchestrator_iniciado", ...)` call. -/
def initPayload (data : PyDict) (sid : String) : PyVal :=
  .dict [("data", .dict data), ("session_id", .str sid),
    ("orchestrators", .list (orchestratorNames.map PyVal.str)),
    ("services", .list (serviceNames.map PyVal.str))]

/-- FASE 3 of `execute_synchronized_analysis`: the master-orchestrator
fallback when the strict success rate is below 50, the enhancement
pass-through otherwise (`lowRate` is the already-computed comparison
`success_rate < 50`). -/
def phase3 (c : Collab) (cr : PyVal) (data : PyDict) (sid : String) (lowRate : Bool) :
    List Ev × Except String PyVal :=
  if lowRate then
    match callCb c.progressCb 5 "🔄 Executando análise com Master Orchestrator..." with
    | .error e => ([], .error e)
    | .ok _ =>
      match c.masterAnalysis with
      | .error e => ([.master], .error e)
      | .ok mr =>
        match combineOrchestratorResults cr mr (.dict data) sid with
        | .error e => ([.master], .error e)
        | .ok f => ([.master], .ok f)
  else
    match enhanceComponentResults cr (.dict data) sid with
    | .error e => ([], .error e)
    | .ok f => ([], .ok f)

/-- The PERFECT_SYNC envelope returned on the success path. -/
def mkEnvelope (sid : String) (execTime : Nat) (svc sr : PyVal) (n : Nat)
    (report : PyVal) : PyVal :=
  .dict [("success", .bool true), ("session_id", .str sid),
    ("execution_time", .int (execTime : Int)), ("service_status", svc),
    ("component_success_rate", sr), ("total_components", .int (n : Int)),
    ("report", report),
    ("orchestrators_used", .list (orchestratorNames.map PyVal.str)),
    ("sync_status", .str "PERFECT_SYNC")]

/-- FASE 4 through the envelope construction (everything after phase 3
produced `final1` as `final_results`). -/
def runTail (c : Collab) (data : PyDict) (sid : String) (execTime : Nat) (ts : String)
    (svc cr final1 : PyVal) (st1 : St) : St × List Ev × Except String PyVal :=
  match callCb c.progressCb 8 "🧠 Aplicando análise psicológica avançada..." with
  | .error e => (st1, [], .error e)
  | .ok _ =>
  match phase4 c data final1 with
  | (evs5, .error e) => (st1, evs5, .error e)
  | (evs5, .ok final2) =>
  match callCb c.progressCb 12 "📊 Consolidando resultados finais..." with
  | .error e => (st1, evs5, .error e)
  | .ok _ =>
  match consolidateAllResults final2 svc sid ts with
  | .error e => (st1, evs5, .error e)
  | .ok report =>
  match callCb c.progressCb 13 "💾 Salvando em todas as categorias..." with
  | .error e => (st1, evs5, .error e)
  | .ok _ =>
  match saveToAllCategories c report sid with
  | (evs7, .error e) => (st1, evs5 ++ evs7, .error e)
  | (evs7, .ok _) =>
  match stMark st1 sid (fun r =>
      { r with status := "completed", executionTime := some execTime }) with
  | .error e => (st1, evs5 ++ evs7, .error e)
  | .ok st2 =>
  match (do
      let es ← pyIndex cr "execution_stats"
      let sr ← pyIndex es "success_rate"
      let sc ← pyIndex cr "successful_components"
      let n ← pyLen sc
      pure (sr, n) : Except String (PyVal × Nat)) with
  | .error e => (st2, evs5 ++ evs7 ++ [Ev.status sid "completed" true], .error e)
  | .ok (sr, n) =>
      (st2, evs5 ++ evs7 ++ [Ev.status sid "completed" true],
        .ok (mkEnvelope sid execTime svc sr n report))

/-- The `try` body of `execute_synchronized_analysis` (everything before
the critical `except`).  `startTime` / `execTime` stand for the two
`time.time()` readings and `ts` for `datetime.now().isoformat()`. -/
def runBody (c : Collab) (data : PyDict) (sid : String) (startTime execTime : Nat)
    (ts : String) (st0 : St) : St × List Ev × Except String PyVal :=
  let st1 := stSet st0 sid (initialSessRec startTime)
  let evs1 : List Ev := [.status sid "running" true]
  match c.salvarEtapa "super_orchestrator_iniciado" (initPayload data sid) with
  | .error e => (st1, evs1 ++ [.etapa "super_orchestrator_iniciado"], .error e)
  | .ok _ =>
  let evs2 := evs1 ++ [Ev.etapa "super_orchestrator_iniciado"]
  match callCb c.progressCb 1 "🔧 Verificando status de todos os serviços..." with
  | .error e => (st1, evs2, .error e)
  | .ok _ =>
  let svc := checkAllServicesStatus c.aiStatus
  match callCb c.progressCb 2 "🧩 Executando componentes com validação..." with
  | .error e => (st1, evs2, .error e)
  | .ok _ =>
  match c.executeComponents with
  | .error e => (st1, evs2, .error e)
  | .ok cr =>
  match (do
      let es ← pyIndex cr "execution_stats"
      let sr ← pyIndex es "success_rate"
      pyLtInt sr 50 : Except String Bool) with
  | .error e => (st1, evs2, .error e)
  | .ok lowRate =>
  match phase3 c cr data sid lowRate with
  | (evs3, .error e) => (st1, evs2 ++ evs3, .error e)
  | (evs3, .ok final1) =>
  match runTail c data sid execTime ts svc cr final1 st1 with
  | (st2, evs5, r) =>
      (st2, evs2 ++ evs3 ++ [Ev.phase3Done final1] ++ evs5, r)

/-- `execute_synchronized_analysis`: the `try` body wrapped by the
critical `except`, which persists the error via `salvar_erro` (itself
possibly raising, in which case the exception propagates to the caller),
marks the session failed and returns the emergency fallback. -/
def run (c : Collab) (data : PyDict) (sid : String) (startTime execTime : Nat)
    (ts : String) (st0 : St) : St × List Ev × Except String PyVal :=
  match runBody c data sid startTime execTime ts st0 with
  | (st, evs, .ok env) => (st, evs, .ok env)
  | (st, evs, .error e) =>
      let evs1 := evs ++ [Ev.erro "super_orchestrator_critico"]
      match c.salvarErro "super_orchestrator_critico" e with
      | .error e2 => (st, evs1, .error e2)
      | .ok _ =>
          match stMark st sid (fun r => { r with status := "failed", errorMsg := some e }) with
          | .error e2 => (st, evs1, .error e2)
          | .ok st2 =>
              (st2, evs1 ++ [Ev.status sid "failed" true], .ok (emergencyFallback data sid))

/-- Whether the master orchestrator was invoked during a trace. -/
def hasMaster : List Ev → Bool
  | [] => false
  | .master :: _ => true
  | _ :: tl => hasMaster tl

/-- The session-status writes of a trace for one session id, in order. -/
def statusList (sid : String) : List Ev → List String
  | [] => []
  | .status s t _ :: tl => if s = sid then t :: statusList sid tl else statusList sid tl
  | _ :: tl => statusList sid tl

/-- Every session-status write of the trace carries the lock. -/
def statusLocked : List Ev → Bool
  | [] => true
  | .status _ _ l :: tl => l && statusLocked tl
  | _ :: tl => statusLocked tl

/-- One padding entry of `_execute_mental_drivers` (`additional_driver`),
built when the generated list has `n` entries so far. -/
def additionalDriver (data : PyDict) (n : Nat) : PyVal :=
  .dict [("numero", .int ((n : Int) + 1)),
    ("nome", .str ("Driver Mental " ++ toString (n + 1))),
    ("descricao", .str ("Driver personalizado para "
      ++ pyStr ((pyLookup data "segmento").getD (.str "mercado")))),
    ("aplicacao", .str ("Aplicação específica para "
      ++ pyStr ((pyLookup data "produto").getD (.str "produto/serviço")))),
    ("impacto", .str "Alto impacto psicológico")]

/-- The `while len(drivers['drivers']) < 19: append(additional_driver)`
padding loop, on a list that currently has the given entries. -/
def padDrivers (data : PyDict) (xs : List PyVal) : List PyVal :=
  xs ++ (List.range (19 - xs.length)).map (fun j => additionalDriver data (xs.length + j))

/-- The placeholder list returned by `_execute_mental_drivers` on its
exception path. -/
def placeholderDrivers : List PyVal :=
  (List.range 19).map (fun i =>
    .dict [("numero", .int ((i : Int) + 1)),
      ("nome", .str ("Driver " ++ toString (i + 1))),
      ("descricao", .str "Em desenvolvimento")])

/-- `_execute_mental_drivers`: reads the dependency outputs, calls the
external generator (`gen` is its outcome), pads a `drivers` list up to 19
entries, and falls back to a 19-entry placeholder list on any exception.
The `while`-loop body calls `.append`, so a non-list `drivers` value that
is shorter than 19 raises and lands on the placeholder path. -/
def mentalDriversBody (gen : Except String PyVal) (data : PyDict) : Except String PyVal := do
    let prev := (pyLookup data "previous_results").getD (.dict [])
    let _web ← pyGetD prev "web_search" (.dict [])
    let _social ← pyGetD prev "social_analysis" (.dict [])
    let drivers ← gen
    match drivers with
    | .dict kvs =>
        match pyLookup kvs "drivers" with
        | some dv => do
            let len0 ← pyLen dv
            if len0 < 19 then
              match dv with
              | .list xs => pure (.dict (pyDictSet kvs "drivers" (.list (padDrivers data xs))))
              | _ => .error "AttributeError: object has no attribute append"
            else pure (.dict kvs)
        | Option.none => pure (.dict kvs)
    | _ => pure drivers

/-- `_execute_mental_drivers` proper: its `try` body followed by the
placeholder-producing `except`. -/
def executeMentalDrivers (gen : Except String PyVal) (data : PyDict) : PyVal :=
  match mentalDriversBody gen data with
  | .ok v => v
  | .error e => .dict [("drivers", .list placeholderDrivers), ("error", .str e)]

end V800

namespace V800

/-! ## `mcp_supadata_manager.py` embedding

The HTTP layer is abstracted as an oracle (`McpEnv`): availability flag,
the optional `_make_request` responses for each platform (`None` models a
request that failed after retries, a failed `body` models a
`JSONDecodeError`), plus the random/clock draws used by the YouTube basic
analysis and the top-level timestamp. -/

/-- ASCII lowering, `str.lower()`. -/
def lowerChar (c : Char) : Char :=
  if 'A' ≤ c ∧ c ≤ 'Z' then Char.ofNat (c.toNat + 32) else c

/-- Python `s.lower()`. -/
def strLower (s : String) : String := String.mk (s.toList.map lowerChar)

/-- Substring occurrence at any position of a nonempty haystack. -/
def isInfixL : List Char → List Char → Bool
  | _, [] => false
  | needle, hay@(_ :: tl) => hay.take needle.length == needle || isInfixL needle tl

/-- Python `needle in hay` for strings. -/
def strContains (hay needle : String) : Bool :=
  needle.toList == hay.toList.take needle.length || isInfixL needle.toList hay.toList

/-- Python `s.split()` (whitespace runs, no empties). -/
def pySplitWs (s : String) : List String :=
  ((s.toList.splitOnP (fun c => c.isWhitespace)).map String.mk).filter (fun t => t ≠ "")

/-- Python `s[:n]`. -/
def strTake (s : String) (n : Nat) : String := String.mk (s.toList.take n)

/-- Python `round(q, 2)`. -/
def round2 (q : ℚ) : ℚ := (round (q * 100) : ℤ) / 100

/-- Python `round(q, 1)`. -/
def round1 (q : ℚ) : ℚ := (round (q * 10) : ℤ) / 10

/-- Python iteration `for x in v`: lists, strings (characters) and dicts
(keys); anything else raises. -/
def pyIter : PyVal → Except String (List PyVal)
  | .list xs => .ok xs
  | .str s => .ok (s.toList.map (fun ch => .str (String.mk [ch])))
  | .dict kvs => .ok (kvs.map (fun kv => .str kv.1))
  | _ => .error "TypeError: object is not iterable"

/-- Python `sum([...])` over the embedded values (start value `0`). -/
def pySum (vs : List PyVal) : Except String PyVal :=
  vs.foldlM
    (fun acc v =>
      match acc, v with
      | .int x, .int y => .ok (.int (x + y))
      | .int x, .bool y => .ok (.int (x + (if y then 1 else 0)))
      | .int x, .rat y => .ok (.rat ((x : ℚ) + y))
      | .rat x, .int y => .ok (.rat (x + (y : ℚ)))
      | .rat x, .bool y => .ok (.rat (x + (if y then 1 else 0)))
      | .rat x, .rat y => .ok (.rat (x + y))
      | _, _ => .error "TypeError: unsupported operand type for +")
    (.int 0)

/-- The `x[:limit] + '...' if len(x) > limit else x` pattern used on
`description` / `content` fields: returns `x` unchanged when short,
slices a long string, raises on long non-strings (`list + str` /
unhashable slice). -/
def pyPreviewField (v : PyVal) (limit : Nat) : Except String PyVal := do
  let l ← pyLen v
  if l > limit then
    match v with
    | .str s => .ok (.str (strTake s limit ++ "..."))
    | _ => .error "TypeError: can only concatenate str"
  else .ok v

/-- One `_make_request` outcome: HTTP status and the `response.json()`
outcome (`.error` models a `JSONDecodeError`). -/
structure Resp where
  status : Int
  body : Except String PyVal

/-- Oracle for the Supadata manager: API availability, the three request
outcomes (`Option.none` = `_make_request` returned `None`), and the
clock/random draws of the YouTube basic analysis and the unified search. -/
structure McpEnv where
  isAvailable : Bool
  ytResp : Option Resp
  twResp : Option Resp
  liResp : Option Resp
  randViews : Nat → String
  randEngagement : Nat → Int
  randDate : Nat → String
  nowIso : String

/-- The five topic strings of `_create_youtube_basic_analysis`. -/
def youtubeTopics (query : String) : List String :=
  let keywords := pySplitWs (strLower query)
  [ "Fundamentos de " ++ (keywords.head?.getD "tecnologia"),
    "Como implementar " ++
      (if keywords.length ≥ 2 then String.intercalate " " (keywords.take 2) else "soluções"),
    "Melhores práticas em " ++ (keywords.head?.getD "mercado"),
    "Tendências de " ++
      (if !keywords.isEmpty then String.intercalate " " keywords else "mercado") ++ " em 2024",
    "Cases de sucesso com " ++ (keywords.head?.getD "inovação") ]

/-- The synthesized result entries of `_create_youtube_basic_analysis`. -/
def youtubeBasicResults (env : McpEnv) (query : String) (maxResults : Nat) : List PyVal :=
  ((youtubeTopics query).take maxResults).enum.map (fun it =>
    PyVal.dict [("title", .str it.2),
      ("description", .str ("Conteúdo educativo sobre " ++ strLower it.2
        ++ " com foco no mercado brasileiro")),
      ("url", .str ("https://youtube.com/results?search_query="
        ++ String.intercalate "+" (pySplitWs query))),
      ("views", .str (env.randViews it.1)),
      ("channel", .str ("Canal Educativo " ++ toString (it.1 + 1))),
      ("published_date", .str (env.randDate it.1)),
      ("relevance_score", .rat (round2 ((17 : ℚ) / 20 - (it.1 : ℚ) / 10))),
      ("analysis_type", .str "market_trend"),
      ("platform", .str "youtube"),
      ("query_used", .str query),
      ("engagement_estimate", .int (env.randEngagement it.1))])

/-- `_create_youtube_basic_analysis`: synthesized market-trend entries. -/
def youtubeBasicKvs (env : McpEnv) (query : String) (maxResults : Nat) : PyDict :=
  [("success", .bool true), ("results", .list (youtubeBasicResults env query maxResults)),
   ("analysis_summary", .str ("Análise de tendências para \"" ++ query
     ++ "\" baseada em padrões de mercado")),
   ("total_found", .int ((youtubeBasicResults env query maxResults).length : Int)),
   ("fallback_used", .bool true), ("platform", .str "youtube"),
   ("query", .str query), ("data_quality", .str "market_analysis")]

/-- `_create_youtube_basic_analysis` as a Python value. -/
def youtubeBasicAnalysis (env : McpEnv) (query : String) (maxResults : Nat) : PyVal :=
  .dict (youtubeBasicKvs env query maxResults)

/-- One item of `_process_youtube_results`. -/
def processYoutubeItem (item : PyVal) (query : String) : Except String PyVal := do
  let snippet ← pyGetD item "snippet" (.dict [])
  let statistics ← pyGetD item "statistics" (.dict [])
  let title ← pyGetD snippet "title" (.str "Título não disponível")
  let descRaw ← pyGetD snippet "description" (.str "")
  let desc ← pyPreviewField descRaw 200
  let channel ← pyGetD snippet "channelTitle" (.str "Canal não identificado")
  let publishedAt ← pyGetD snippet "publishedAt" (.str "")
  let viewCount ← pyGetD statistics "viewCount" (.str "0")
  let likeCount ← pyGetD statistics "likeCount" (.str "0")
  let commentCount ← pyGetD statistics "commentCount" (.str "0")
  let idv ← pyGetD item "id" (.dict [])
  let videoId ← pyGetD idv "videoId" (.str "")
  let thumbs ← pyGetD snippet "thumbnails" (.dict [])
  let med ← pyGetD thumbs "medium" (.dict [])
  let thumbUrl ← pyGetD med "url" (.str "")
  let cd ← pyGetD item "contentDetails" (.dict [])
  let duration ← pyGetD cd "duration" (.str "")
  pure (.dict [("title", title), ("description", desc), ("channel", channel),
    ("published_at", publishedAt), ("view_count", viewCount),
    ("like_count", likeCount), ("comment_count", commentCount),
    ("url", .str ("https://youtube.com/watch?v=" ++ pyStr videoId)),
    ("platform", .str "youtube"), ("query_used", .str query),
    ("thumbnail", thumbUrl), ("duration", duration)])

/-- `_process_youtube_results`. -/
def processYoutubeResults (data : PyVal) (query : String) : Except String PyVal := do
  let inner ← pyGetD data "data" (.list [])
  let itemsV ← pyGetD data "items" inner
  let items ← pyIter itemsV
  let rs ← items.mapM (fun it => processYoutubeItem it query)
  pure (.dict [("success", .bool true), ("platform", .str "youtube"),
    ("results", .list rs), ("total_found", .int (rs.length : Int)),
    ("query", .str query), ("data_quality", .str "api_data")])

/-- `search_youtube`: basic analysis when the API is unavailable, the
request fails, authentication fails, the payload is invalid, or any
processing error is raised; processed data on HTTP 200. -/
def searchYoutube (env : McpEnv) (query : String) (maxResults : Nat) : PyVal :=
  if !env.isAvailable then youtubeBasicAnalysis env query maxResults
  else
    match env.ytResp with
    | Option.none => youtubeBasicAnalysis env query maxResults
    | some r =>
        if r.status = 401 then youtubeBasicAnalysis env query maxResults
        else if r.status = 403 then youtubeBasicAnalysis env query maxResults
        else if r.status = 200 then
          match r.body with
          | .error _ => youtubeBasicAnalysis env query maxResults
          | .ok data =>
              match processYoutubeResults data query with
              | .ok pd => pd
              | .error _ => youtubeBasicAnalysis env query maxResults
        else youtubeBasicAnalysis env query maxResults

/-- The synthesized entries of `_create_simulated_twitter_data`. -/
def simulatedTwitterResults (query : String) (maxResults : Nat) : List PyVal :=
  (List.range (min maxResults 5)).map (fun i =>
    PyVal.dict [("text", .str ("Tweet interessante sobre " ++ query
        ++ " no Brasil. Tendências e insights importantes #" ++ query)),
      ("author_id", .str ("user" ++ toString (i + 1))),
      ("created_at", .str "2024-08-01T00:00:00Z"),
      ("retweet_count", .int (((i : Int) + 1) * 10)),
      ("like_count", .int (((i : Int) + 1) * 25)),
      ("reply_count", .int (((i : Int) + 1) * 5)),
      ("quote_count", .int (((i : Int) + 1) * 3)),
      ("url", .str ("https://twitter.com/i/status/example" ++ toString (i + 1))),
      ("platform", .str "twitter"), ("query_used", .str query),
      ("simulated", .bool true)])

/-- `_create_simulated_twitter_data`. -/
def simulatedTwitterKvs (query : String) (maxResults : Nat) : PyDict :=
  [("success", .bool true), ("platform", .str "twitter"),
   ("results", .list (simulatedTwitterResults query maxResults)),
   ("total_found", .int ((simulatedTwitterResults query maxResults).length : Int)),
   ("query", .str query), ("data_type", .str "simulated")]

/-- `_create_simulated_twitter_data` as a Python value. -/
def simulatedTwitterData (query : String) (maxResults : Nat) : PyVal :=
  .dict (simulatedTwitterKvs query maxResults)

/-- One item of `_process_twitter_results`. -/
def processTwitterItem (item : PyVal) (query : String) : Except String PyVal := do
  let metrics ← pyGetD item "public_metrics" (.dict [])
  let text ← pyGetD item "text" (.str "")
  let author ← pyGetD item "author_id" (.str "")
  let created ← pyGetD item "created_at" (.str "")
  let rt ← pyGetD metrics "retweet_count" (.int 0)
  let lk ← pyGetD metrics "like_count" (.int 0)
  let rp ← pyGetD metrics "reply_count" (.int 0)
  let qt ← pyGetD metrics "quote_count" (.int 0)
  let idv ← pyGetD item "id" (.str "")
  let engagement ← pySum [rt, lk, rp, qt]
  pure (.dict [("text", text), ("author_id", author), ("created_at", created),
    ("retweet_count", rt), ("like_count", lk), ("reply_count", rp),
    ("quote_count", qt),
    ("url", .str ("https://twitter.com/i/status/" ++ pyStr idv)),
    ("platform", .str "twitter"), ("query_used", .str query),
    ("engagement_total", engagement)])

/-- `_process_twitter_results`. -/
def processTwitterResults (data : PyVal) (query : String) : Except String PyVal := do
  let itemsV ← pyGetD data "data" (.list [])
  let items ← pyIter itemsV
  let rs ← items.mapM (fun it => processTwitterItem it query)
  pure (.dict [("success", .bool true), ("platform", .str "twitter"),
    ("results", .list rs), ("total_found", .int (rs.length : Int)),
    ("query", .str query), ("data_quality", .str "api_data")])

/-- `search_twitter`. -/
def searchTwitter (env : McpEnv) (query : String) (maxResults : Nat) : PyVal :=
  if !env.isAvailable then simulatedTwitterData query maxResults
  else
    match env.twResp with
    | Option.none => simulatedTwitterData query maxResults
    | some r =>
        if r.status ≠ 200 then simulatedTwitterData query maxResults
        else
          match r.body with
          | .error _ => simulatedTwitterData query maxResults
          | .ok data =>
              match processTwitterResults data query with
              | .ok pd => pd
              | .error _ => simulatedTwitterData query maxResults

/-- The synthesized entries of `_create_simulated_linkedin_data`. -/
def simulatedLinkedinResults (query : String) (maxResults : Nat) : List PyVal :=
  (List.range (min maxResults 5)).map (fun i =>
    PyVal.dict [("title", .str ("Artigo profissional sobre " ++ query)),
      ("content", .str ("Análise profissional detalhada sobre o mercado de "
        ++ query ++ " no Brasil.")),
      ("author", .str ("Especialista " ++ toString (i + 1))),
      ("company", .str ("Empresa " ++ toString (i + 1))),
      ("published_date", .str "2024-08-01"),
      ("likes", .int (((i : Int) + 1) * 15)),
      ("comments", .int (((i : Int) + 1) * 8)),
      ("shares", .int (((i : Int) + 1) * 4)),
      ("url", .str ("https://linkedin.com/posts/example" ++ toString (i + 1))),
      ("platform", .str "linkedin"), ("query_used", .str query),
      ("simulated", .bool true)])

/-- `_create_simulated_linkedin_data`. -/
def simulatedLinkedinKvs (query : String) (maxResults : Nat) : PyDict :=
  [("success", .bool true), ("platform", .str "linkedin"),
   ("results", .list (simulatedLinkedinResults query maxResults)),
   ("total_found", .int ((simulatedLinkedinResults query maxResults).length : Int)),
   ("query", .str query), ("data_type", .str "simulated")]

/-- `_create_simulated_linkedin_data` as a Python value. -/
def simulatedLinkedinData (query : String) (maxResults : Nat) : PyVal :=
  .dict (simulatedLinkedinKvs query maxResults)

/-- One item of `_process_linkedin_results`. -/
def processLinkedinItem (item : PyVal) (query : String) : Except String PyVal := do
  let socialCounts ← pyGetD item "socialCounts" (.dict [])
  let authorInfo ← pyGetD item "author" (.dict [])
  let title ← pyGetD item "title" (.str "Post do LinkedIn")
  let contentRaw ← pyGetD item "content" (.str "")
  let content ← pyPreviewField contentRaw 300
  let author ← pyGetD authorInfo "name" (.str "Autor não identificado")
  let company ← pyGetD authorInfo "company" (.str "")
  let published ← pyGetD item "publishedDate" (.str "")
  let likes ← pyGetD socialCounts "numLikes" (.int 0)
  let comments ← pyGetD socialCounts "numComments" (.int 0)
  let shares ← pyGetD socialCounts "numShares" (.int 0)
  let url ← pyGetD item "url" (.str "")
  let engagement ← pySum [likes, comments, shares]
  pure (.dict [("title", title), ("content", content), ("author", author),
    ("company", company), ("published_date", published), ("likes", likes),
    ("comments", comments), ("shares", shares), ("url", url),
    ("platform", .str "linkedin"), ("query_used", .str query),
    ("engagement_total", engagement)])

/-- `_process_linkedin_results`. -/
def processLinkedinResults (data : PyVal) (query : String) : Except String PyVal := do
  let itemsV ← pyGetD data "elements" (.list [])
  let items ← pyIter itemsV
  let rs ← items.mapM (fun it => processLinkedinItem it query)
  pure (.dict [("success", .bool true), ("platform", .str "linkedin"),
    ("results", .list rs), ("total_found", .int (rs.length : Int)),
    ("query", .str query), ("data_quality", .str "api_data")])

/-- `search_linkedin`. -/
def searchLinkedin (env : McpEnv) (query : String) (maxResults : Nat) : PyVal :=
  if !env.isAvailable then simulatedLinkedinData query maxResults
  else
    match env.liResp with
    | Option.none => simulatedLinkedinData query maxResults
    | some r =>
        if r.status ≠ 200 then simulatedLinkedinData query maxResults
        else
          match r.body with
          | .error _ => simulatedLinkedinData query maxResults
          | .ok data =>
              match processLinkedinResults data query with
              | .ok pd => pd
              | .error _ => simulatedLinkedinData query maxResults

/-- `search_instagram`: always the fixed unavailability payload. -/
def searchInstagram (query : String) (maxResults : Nat) : PyVal :=
  .dict [("success", .bool false), ("platform", .str "instagram"),
    ("results", .list []), ("total_found", .int 0), ("query", .str query),
    ("error", .str "Instagram API requer configuração específica"),
    ("message", .str "Instagram possui restrições de API mais rigorosas"),
    ("data_quality", .str "unavailable"),
    ("recommendation", .str "Configure Instagram Basic Display API ou Instagram Graph API")]

end V800

namespace V800

/-- One platform block of `search_all_platforms`: each mutation of the
accumulator commits before the next fallible step, and the surrounding
`try/except` swallows any exception with whatever state was reached. -/
def addPlatform (res : PyDict) (name : String) (pr : PyVal) : PyDict :=
  match pyIndex (.dict res) "platforms" with
  | .error _ => res
  | .ok platforms =>
    match pyItems platforms with
    | .error _ => res
    | .ok pitems =>
      let res1 := pyDictSet res "platforms" (.dict (pyDictSet pitems name pr))
      match pyIndex (.dict res1) "platforms_searched" with
      | .error _ => res1
      | .ok searched =>
        match searched with
        | .list sxs =>
          let res2 := pyDictSet res1 "platforms_searched" (.list (sxs ++ [.str name]))
          match pyGetN pr "success" with
          | .error _ => res2
          | .ok succ =>
            if pyTruthy succ then
              match pyIndex (.dict res2) "platforms_successful" with
              | .error _ => res2
              | .ok winners =>
                match winners with
                | .list wxs =>
                  let res3 :=
                    pyDictSet res2 "platforms_successful" (.list (wxs ++ [.str name]))
                  match pyGetD pr "results" (.list []) with
                  | .error _ => res3
                  | .ok rl =>
                    match pyLen rl with
                    | .error _ => res3
                    | .ok n =>
                      match pyIndex (.dict res3) "total_results" with
                      | .error _ => res3
                      | .ok tot =>
                        match tot with
                        | .int t => pyDictSet res3 "total_results" (.int (t + (n : Int)))
                        | _ => res3
                | _ => res2
            else res2
        | _ => res1

/-- `search_all_platforms`: unified search over the four platforms; the
final line `results["success"] = len(results["platforms_successful"]) > 0`
runs outside any `try`, so its (unreachable) failure would propagate. -/
def searchAllPlatforms (env : McpEnv) (query : String) (maxPerPlatform : Nat) :
    Except String PyVal := do
  let res0 : PyDict := [("query", .str query), ("timestamp", .str env.nowIso),
    ("platforms_searched", .list []), ("platforms_successful", .list []),
    ("total_results", .int 0),
    ("search_quality", .str (if env.isAvailable then "real_data" else "simulated")),
    ("platforms", .dict [])]
  let res1 := addPlatform res0 "youtube" (searchYoutube env query maxPerPlatform)
  let res2 := addPlatform res1 "twitter" (searchTwitter env query maxPerPlatform)
  let res3 := addPlatform res2 "linkedin" (searchLinkedin env query maxPerPlatform)
  let res4 := addPlatform res3 "instagram" (searchInstagram query maxPerPlatform)
  let winners ← pyIndex (.dict res4) "platforms_successful"
  let n ← pyLen winners
  pure (.dict (pyDictSet res4 "success" (.bool (decide (0 < n)))))

/-- The text fields probed by `_extract_text_from_post`, in order. -/
def textFields : List String :=
  ["text", "content", "caption", "title", "description"]

/-- The field-probing loop of `_extract_text_from_post`. -/
def extractLoop (post : PyDict) : List String → String
  | [] => ""
  | f :: tl =>
      match pyLookup post f with
      | some v => if pyTruthy v then pyStr v else extractLoop post tl
      | Option.none => extractLoop post tl

/-- `_extract_text_from_post`: first present-and-truthy text field,
stringified; empty string otherwise. -/
def extractTextFromPost (post : PyDict) : String :=
  extractLoop post textFields

/-- `sentiment_keywords['positive']`. -/
def positiveWords : List String :=
  ["excelente", "ótimo", "bom", "fantástico", "incrível", "maravilhoso",
   "perfeito", "adorei", "amei", "recomendo", "top", "show", "sucesso",
   "qualidade", "satisfeito", "feliz", "positivo", "aprovado", "eficiente",
   "útil", "prático", "inovador", "revolucionário"]

/-- `sentiment_keywords['negative']`. -/
def negativeWords : List String :=
  ["péssimo", "ruim", "terrível", "horrível", "não recomendo", "detesto",
   "odeio", "decepcionante", "frustrado", "problema", "erro", "falha",
   "insatisfeito", "negativo", "pior", "complicado", "difícil", "caro",
   "lento", "confuso", "inútil"]

/-- `sentiment_keywords['neutral']`. -/
def neutralWords : List String :=
  ["ok", "normal", "regular", "médio", "comum", "básico", "simples",
   "padrão", "razoável", "aceitável"]

/-- `sum(1 for word in ws if word in text_lower)`. -/
def countWords (ws : List String) (textLower : String) : Nat :=
  (ws.filter (fun w => strContains textLower w)).length

/-- Accumulator of the per-post loop of `analyze_sentiment`. -/
structure SentAcc where
  pos : Nat
  neg : Nat
  neu : Nat
  detailed : List PyVal
  deriving Repr

/-- One iteration of the per-post loop: empty text counts as neutral and
adds no detailed entry; otherwise keyword counts pick the sentiment and a
detailed entry is appended. -/
def classifyPost (acc : SentAcc) (i : Nat) (post : PyDict) : SentAcc :=
  let text := extractTextFromPost post
  if text = "" then { acc with neu := acc.neu + 1 }
  else
    let tl := strLower text
    let p := countWords positiveWords tl
    let n := countWords negativeWords tl
    let u := countWords neutralWords tl
    let preview : String := if text.length > 100 then strTake text 100 ++ "..." else text
    let entry : String → ℚ → PyVal := fun sRes conf =>
      .dict [("post_index", .int (i : Int)), ("sentiment", .str sRes),
        ("confidence", .rat (round2 conf)),
        ("positive_words", .int (p : Int)), ("negative_words", .int (n : Int)),
        ("neutral_words", .int (u : Int)), ("text_preview", .str preview)]
    if p > n ∧ p > u then
      { acc with pos := acc.pos + 1,
                 detailed := acc.detailed ++ [entry "positive" (min ((p : ℚ) / 3) 1)] }
    else if n > p ∧ n > u then
      { acc with neg := acc.neg + 1,
                 detailed := acc.detailed ++ [entry "negative" (min ((n : ℚ) / 3) 1)] }
    else
      { acc with neu := acc.neu + 1,
                 detailed := acc.detailed ++ [entry "neutral" (1 / 2)] }

/-- `analyze_sentiment`: early neutral return on an empty post list;
otherwise keyword classification per post, overall sentiment from the
positive/negative fractions (threshold 0.4), score in `[-100, 100]`. -/
def analyzeSentiment (posts : List PyDict) : PyVal :=
  if posts.isEmpty then
    .dict [("sentiment", .str "neutral"), ("score", .rat 0),
      ("analysis_quality", .str "no_data"),
      ("message", .str "Nenhum post fornecido para análise")]
  else
    let acc := posts.enum.foldl (fun a iv => classifyPost a iv.1 iv.2)
      { pos := 0, neg := 0, neu := 0, detailed := [] }
    let total : Nat := posts.length
    let posFrac : ℚ := (acc.pos : ℚ) / (total : ℚ)
    let negFrac : ℚ := (acc.neg : ℚ) / (total : ℚ)
    let overall : String × ℚ :=
      if posFrac > negFrac ∧ posFrac > 2 / 5 then ("positive", posFrac * 100)
      else if negFrac > posFrac ∧ negFrac > 2 / 5 then ("negative", negFrac * (-100))
      else ("neutral", 0)
    let confidence : ℚ := |posFrac - negFrac| * 2
    .dict [("sentiment", .str overall.1), ("score", .rat (round2 overall.2)),
      ("confidence", .rat (round2 (min confidence 1))),
      ("distribution", .dict [("positive", .int (acc.pos : Int)),
        ("negative", .int (acc.neg : Int)), ("neutral", .int (acc.neu : Int)),
        ("total", .int (total : Int))]),
      ("percentages", .dict [("positive", .rat (round1 (posFrac * 100))),
        ("negative", .rat (round1 (negFrac * 100))),
        ("neutral", .rat (round1 (((acc.neu : ℚ) / (total : ℚ)) * 100)))]),
      ("analysis_quality", .str "comprehensive_analysis"),
      ("detailed_breakdown", .list (acc.detailed.take 5))]

end V800

namespace V800

/-! ## General lemmas about the embedding -/

theorem ok_bind {α β : Type} (a : α) (f : α → Except String β) :
    (Except.ok a >>= f) = f a := rfl

theorem error_bind {α β : Type} (e : String) (f : α → Except String β) :
    ((Except.error e : Except String α) >>= f) = .error e := rfl

theorem pure_eq_ok {α : Type} (a : α) : (pure a : Except String α) = .ok a := rfl

theorem pyLookup_set_self (d : PyDict) (k : String) (v : PyVal) :
    pyLookup (pyDictSet d k v) k = some v := by
  induction d with
  | nil => simp [pyDictSet, pyLookup]
  | cons hd tl ih =>
      obtain ⟨k', w⟩ := hd
      by_cases h : k' = k
      · simp [pyDictSet, pyLookup, h]
      · simp [pyDictSet, pyLookup, h, ih]

theorem pyLookup_set_ne (d : PyDict) (k k' : String) (v : PyVal) (h : k' ≠ k) :
    pyLookup (pyDictSet d k v) k' = pyLookup d k' := by
  have h2 : k ≠ k' := fun hh => h hh.symm
  induction d with
  | nil => simp [pyDictSet, pyLookup, h2]
  | cons hd tl ih =>
      obtain ⟨k0, w⟩ := hd
      by_cases h0 : k0 = k
      · subst h0
        simp [pyDictSet, pyLookup, h2]
      · by_cases h1 : k0 = k'
        · subst h1
          simp [pyDictSet, pyLookup, h0]
        · simp [pyDictSet, pyLookup, h0, h1, ih]

theorem padDrivers_length (data : PyDict) (xs : List PyVal) :
    (padDrivers data xs).length = max xs.length 19 := by
  rw [padDrivers, List.length_append, List.length_map, List.length_range]
  omega

theorem placeholderDrivers_length : placeholderDrivers.length = 19 := by
  rfl

/-! ## C8: the mental-drivers stage pads its list to at least 19 entries -/

/-- "Any `drivers` entry of this value is sized with at least 19
elements." -/
def driversLenOk (v : PyVal) : Prop :=
  ∀ kvs dv, v = .dict kvs → pyLookup kvs "drivers" = some dv →
    ∃ m, pyLen dv = .ok m ∧ 19 ≤ m

theorem driversLenOk_placeholder (e : String) :
    driversLenOk (.dict [("drivers", .list placeholderDrivers), ("error", .str e)]) := by
  intro kvs dv hk hl
  cases hk
  simp only [pyLookup, reduceIte] at hl
  cases hl
  exact ⟨19, by simp [pyLen, placeholderDrivers_length], le_refl 19⟩

theorem mentalDriversBody_ok_good (gen : Except String PyVal) (data : PyDict)
    (v : PyVal) (h : mentalDriversBody gen data = .ok v) : driversLenOk v := by
  simp only [mentalDriversBody] at h
  rcases hprev : (pyLookup data "previous_results").getD (.dict []) with _ | b | n | q | s | xs | pkvs <;>
    rw [hprev] at h <;>
    simp only [pyGetD, ok_bind, error_bind, pure_eq_ok] at h
  case dict =>
    rcases gen with e | g
    · simp only [error_bind] at h
      cases h
    · simp only [ok_bind] at h
      rcases g with _ | b' | n' | q' | s' | xs' | gkvs <;>
        simp only [pure_eq_ok, Except.ok.injEq] at h <;>
        try (subst h; intro kvs dv hk hl; cases hk)
      case dict =>
        rcases hdl : pyLookup gkvs "drivers" with _ | dv0 <;> rw [hdl] at h
        · simp only [pure_eq_ok, Except.ok.injEq] at h
          subst h
          intro kvs dv hk hl
          cases hk
          rw [hdl] at hl
          cases hl
        · rcases dv0 with _ | b2 | n2 | q2 | s2 | xs2 | dkvs <;>
            simp only [pyLen, ok_bind, error_bind, pure_eq_ok] at h
          case none => cases h
          case bool => cases h
          case int => cases h
          case rat => cases h
          case str =>
            by_cases hlen : s2.length < 19
            · rw [if_pos hlen] at h
              cases h
            · rw [if_neg hlen] at h
              simp only [Except.ok.injEq] at h
              subst h
              intro kvs dv hk hl
              cases hk
              rw [hdl] at hl
              cases hl
              exact ⟨s2.length, rfl, by omega⟩
          case list =>
            by_cases hlen : xs2.length < 19
            · rw [if_pos hlen] at h
              simp only [Except.ok.injEq] at h
              subst h
              intro kvs dv hk hl
              cases hk
              rw [pyLookup_set_self] at hl
              cases hl
              exact ⟨(padDrivers data xs2).length, rfl, by rw [padDrivers_length]; omega⟩
            · rw [if_neg hlen] at h
              simp only [Except.ok.injEq] at h
              subst h
              intro kvs dv hk hl
              cases hk
              rw [hdl] at hl
              cases hl
              exact ⟨xs2.length, rfl, by omega⟩
          case dict =>
            by_cases hlen : dkvs.length < 19
            · rw [if_pos hlen] at h
              cases h
            · rw [if_neg hlen] at h
              simp only [Except.ok.injEq] at h
              subst h
              intro kvs dv hk hl
              cases hk
              rw [hdl] at hl
              cases hl
              exact ⟨dkvs.length, rfl, by omega⟩
  all_goals cases h

/-- C8 — For every generator outcome and input data mapping, whenever
`_execute_mental_drivers` returns a mapping containing a `drivers` key,
the value under that key is sized and has at least 19 entries (in
particular the exception path returns the 19-entry placeholder list); and
when the generator returns a mapping whose `drivers` key holds a list of
`n` entries (and the `previous_results` reads succeed), the returned
`drivers` list has exactly `max n 19` entries — so it is padded to exactly
19 when `n < 19` and left at `n` when `n ≥ 19`. -/
theorem C8_mental_drivers_padded_to_19 (gen : Except String PyVal) (data : PyDict) :
    driversLenOk (executeMentalDrivers gen data) ∧
    (∀ kvs0 xs pkvs, gen = .ok (.dict kvs0) →
        pyLookup kvs0 "drivers" = some (.list xs) →
        (pyLookup data "previous_results").getD (.dict []) = .dict pkvs →
        ∃ ys, (∃ kvs, executeMentalDrivers gen data = .dict kvs ∧
            pyLookup kvs "drivers" = some (.list ys)) ∧
          ys.length = max xs.length 19 ∧ (xs.length < 19 → ys.length = 19)) := by
  constructor
  · unfold executeMentalDrivers
    rcases hb : mentalDriversBody gen data with e | v
    · exact driversLenOk_placeholder e
    · exact mentalDriversBody_ok_good gen data v hb
  · intro kvs0 xs pkvs hgen hdl hprev
    have hbody : mentalDriversBody gen data =
        .ok (if xs.length < 19 then
          .dict (pyDictSet kvs0 "drivers" (.list (padDrivers data xs)))
        else .dict kvs0) := by
      simp only [mentalDriversBody, hprev, pyGetD, ok_bind, hgen, hdl, pyLen]
      by_cases hlen : xs.length < 19
      · rw [if_pos hlen, if_pos hlen]
        rfl
      · rw [if_neg hlen, if_neg hlen]
        rfl
    by_cases hlen : xs.length < 19
    · rw [if_pos hlen] at hbody
      refine ⟨padDrivers data xs, ⟨pyDictSet kvs0 "drivers" (.list (padDrivers data xs)), ?_, ?_⟩, ?_, ?_⟩
      · unfold executeMentalDrivers
        rw [hbody]
      · exact pyLookup_set_self kvs0 "drivers" (.list (padDrivers data xs))
      · rw [padDrivers_length]
      · intro _
        rw [padDrivers_length]
        omega
    · rw [if_neg hlen] at hbody
      refine ⟨xs, ⟨kvs0, ?_, hdl⟩, ?_, ?_⟩
      · unfold executeMentalDrivers
        rw [hbody]
      · omega
      · intro hc
        exact absurd hc hlen

/-- Witness for C8: a generator returning an empty `drivers` list is
padded to exactly 19 entries. -/
theorem C8_witness :
    ∃ ys, (∃ kvs, executeMentalDrivers (.ok (.dict [("drivers", .list [])])) [] = .dict kvs ∧
        pyLookup kvs "drivers" = some (.list ys)) ∧
      ys.length = max (List.length ([] : List PyVal)) 19 ∧
      (List.length ([] : List PyVal) < 19 → ys.length = 19) :=
  (C8_mental_drivers_padded_to_19 (.ok (.dict [("drivers", .list [])])) []).2
    [("drivers", .list [])] [] [] rfl rfl rfl

end V800

namespace V800

/-! ## C3: merge precedence of `_combine_orchestrator_results` -/

theorem pyLookup_eq_none_of_not_mem (tl : PyDict) (k0 : String)
    (h : k0 ∉ tl.map Prod.fst) : pyLookup tl k0 = Option.none := by
  induction tl with
  | nil => rfl
  | cons hd2 tl2 ih2 =>
      obtain ⟨k1, v1⟩ := hd2
      simp only [List.map_cons, List.mem_cons, not_or] at h
      have hne : k1 ≠ k0 := fun hh => h.1 hh.symm
      simp only [pyLookup, hne, if_false]
      exact ih2 h.2

theorem updateFold_lookup (sc : PyDict) (hnd : (sc.map Prod.fst).Nodup) (d : PyDict)
    (k : String) :
    pyLookup (sc.foldl (fun acc kv => pyDictSet acc kv.1 kv.2) d) k =
      match pyLookup sc k with
      | some v => some v
      | Option.none => pyLookup d k := by
  induction sc generalizing d with
  | nil => simp [pyLookup]
  | cons hd tl ih =>
      obtain ⟨k0, v0⟩ := hd
      simp only [List.map_cons, List.nodup_cons] at hnd
      simp only [List.foldl_cons]
      rw [ih hnd.2 (pyDictSet d k0 v0)]
      by_cases hk : k0 = k
      · subst hk
        rw [pyLookup_eq_none_of_not_mem tl k0 hnd.1]
        simp [pyLookup, pyLookup_set_self]
      · simp only [pyLookup, hk, if_false]
        cases htl : pyLookup tl k
        · rw [pyLookup_set_ne d k0 k v0 (fun hh => hk hh.symm)]
        · rfl

theorem fillFold_preserves (mc : PyDict) (fc1 : PyDict) (k : String) (v : PyVal)
    (h : pyLookup fc1 k = some v) :
    pyLookup (mc.foldl
      (fun acc kv => if pyHasKey acc kv.1 then acc else pyDictSet acc kv.1 kv.2) fc1) k
      = some v := by
  induction mc generalizing fc1 with
  | nil => exact h
  | cons hd tl ih =>
      obtain ⟨k0, v0⟩ := hd
      simp only [List.foldl_cons]
      by_cases hh : pyHasKey fc1 k0
      · rw [if_pos hh]
        exact ih fc1 h
      · rw [if_neg hh]
        apply ih
        by_cases hk : k = k0
        · subst hk
          exact absurd (by simp [pyHasKey, h]) hh
        · rw [pyLookup_set_ne fc1 k0 k v0 hk]
          exact h

theorem fillFold_fills (mc : PyDict) (fc1 : PyDict) (k : String)
    (h : pyLookup fc1 k = Option.none) :
    pyLookup (mc.foldl
      (fun acc kv => if pyHasKey acc kv.1 then acc else pyDictSet acc kv.1 kv.2) fc1) k
      = pyLookup mc k := by
  induction mc generalizing fc1 with
  | nil => simpa [pyLookup] using h
  | cons hd tl ih =>
      obtain ⟨k0, v0⟩ := hd
      simp only [List.foldl_cons, pyLookup]
      by_cases hk : k0 = k
      · subst hk
        have hnh : ¬ pyHasKey fc1 k0 := by simp [pyHasKey, h]
        rw [if_neg hnh, if_pos rfl]
        exact fillFold_preserves tl (pyDictSet fc1 k0 v0) k0 v0
          (pyLookup_set_self fc1 k0 v0)
      · rw [if_neg hk]
        by_cases hh : pyHasKey fc1 k0
        · rw [if_pos hh]
          exact ih fc1 h
        · rw [if_neg hh]
          apply ih
          rw [pyLookup_set_ne fc1 k0 k v0 (fun hh2 => hk hh2.symm)]
          exact h

theorem combineFc1_spec (crKvs sc : PyDict)
    (hsc : pyLookup crKvs "successful_components" = some (.dict sc))
    (hnd : (sc.map Prod.fst).Nodup) :
    ∃ fc1 : PyDict, combineFc1 (.dict crKvs) = .ok fc1 ∧
      ∀ k, pyLookup fc1 k = pyLookup sc k := by
  by_cases hsc0 : sc = []
  · subst hsc0
    refine ⟨[], ?_, fun k => rfl⟩
    simp [combineFc1, pyGetN, pyGetD, hsc, ok_bind, pyTruthy]
    rfl
  · refine ⟨sc.foldl (fun (acc : PyDict) (kv : String × PyVal) =>
      pyDictSet acc kv.1 kv.2) [], ?_, ?_⟩
    · simp [combineFc1, pyGetN, pyGetD, hsc, ok_bind, pyTruthy,
        List.isEmpty_eq_true, hsc0, pyIndex, pyUpdate]
    · intro k
      rw [updateFold_lookup sc hnd [] k]
      cases pyLookup sc k <;> simp [pyLookup]

theorem combineFc2_spec (mrKvs mc fc1 : PyDict)
    (hmc : pyLookup mrKvs "components" = some (.dict mc)) :
    ∃ fc2 : PyDict, combineFc2 (.dict mrKvs) fc1 = .ok fc2 ∧
      (∀ k v, pyLookup fc1 k = some v → pyLookup fc2 k = some v) ∧
      (∀ k v, pyLookup fc1 k = Option.none → pyLookup mc k = some v →
        pyLookup fc2 k = some v) := by
  by_cases hmc0 : mc = []
  · subst hmc0
    refine ⟨fc1, ?_, fun k v hk => hk, fun k v _ hk => by simp [pyLookup] at hk⟩
    simp [combineFc2, pyGetN, pyGetD, hmc, ok_bind, pyTruthy]
    rfl
  · refine ⟨mc.foldl (fun (acc : PyDict) (kv : String × PyVal) =>
      if pyHasKey acc kv.1 then acc else pyDictSet acc kv.1 kv.2) fc1, ?_, ?_, ?_⟩
    · simp [combineFc2, pyGetN, pyGetD, hmc, ok_bind, pyTruthy,
        List.isEmpty_eq_true, hmc0, pyIndex, pyItems]
    · intro k v hk
      exact fillFold_preserves mc fc1 k v hk
    · intro k v hks hkm
      rw [fillFold_fills mc fc1 k hks]
      exact hkm

/-- C3 — In `_combine_orchestrator_results`, every component name present
in the strict executor's `successful_components` resolves to the strict
value in `final_components` (in particular names present in both result
sets), and every name absent from the strict set but present in the
alternate pipeline's `components` is filled from the alternate value. -/
theorem C3_combine_merge_precedence (cr mr data : PyVal) (crKvs mrKvs sc mc : PyDict)
    (sid : String) (hcr : cr = .dict crKvs) (hmr : mr = .dict mrKvs)
    (hsc : pyLookup crKvs "successful_components" = some (.dict sc))
    (hmc : pyLookup mrKvs "components" = some (.dict mc))
    (hnd : (sc.map Prod.fst).Nodup) :
    ∃ fc : PyDict,
      (∃ ckvs, combineOrchestratorResults cr mr data sid = .ok (.dict ckvs) ∧
        pyLookup ckvs "final_components" = some (.dict fc)) ∧
      (∀ k v, pyLookup sc k = some v → pyLookup fc k = some v) ∧
      (∀ k v, pyLookup sc k = Option.none → pyLookup mc k = some v →
        pyLookup fc k = some v) := by
  subst hcr hmr
  obtain ⟨fc1, hfc1eq, hfc1look⟩ := combineFc1_spec crKvs sc hsc hnd
  obtain ⟨fc2, hfc2eq, hfc2a, hfc2b⟩ := combineFc2_spec mrKvs mc fc1 hmc
  refine ⟨fc2, ⟨pyDictSet
    [("component_results", .dict crKvs), ("master_results", .dict mrKvs),
     ("combination_strategy", .str "hybrid"), ("session_id", .str sid)]
    "final_components" (.dict fc2), ?_, ?_⟩, ?_, ?_⟩
  · unfold combineOrchestratorResults
    rw [hfc1eq, ok_bind, hfc2eq, ok_bind, pure_eq_ok]
  · simp [pyDictSet, pyLookup]
  · intro k v hk
    exact hfc2a k v (by rw [hfc1look k]; exact hk)
  · intro k v hks hkm
    exact hfc2b k v (by rw [hfc1look k]; exact hks) hkm

/-- Witness for C3 at a concrete pair of result sets: `web_search` is in
both (strict value wins), `pre_pitch` only in the alternate set. -/
theorem C3_witness :
    ∃ fc : PyDict,
      (∃ ckvs, combineOrchestratorResults
          (.dict [("successful_components",
            .dict [("web_search", .str "strict")])])
          (.dict [("components",
            .dict [("web_search", .str "master"), ("pre_pitch", .str "master")])])
          (.dict []) "s1" = .ok (.dict ckvs) ∧
        pyLookup ckvs "final_components" = some (.dict fc)) ∧
      (∀ k v, pyLookup [("web_search", PyVal.str "strict")] k = some v →
        pyLookup fc k = some v) ∧
      (∀ k v, pyLookup [("web_search", PyVal.str "strict")] k = Option.none →
        pyLookup [("web_search", PyVal.str "master"), ("pre_pitch", PyVal.str "master")] k
          = some v → pyLookup fc k = some v) :=
  C3_combine_merge_precedence
    (.dict [("successful_components", .dict [("web_search", .str "strict")])])
    (.dict [("components",
      .dict [("web_search", .str "master"), ("pre_pitch", .str "master")])])
    (.dict []) _ _ _ _ "s1" rfl rfl rfl rfl (by simp)

end V800

namespace V800

/-! ## C5: `_consolidate_all_results` on malformed inputs -/

/-- Counterexample for C5 — `_consolidate_all_results` raises
(`AttributeError` from `c.get('error')`) on a results mapping whose
`components` mapping holds a non-mapping component value, contradicting
"returns a ConsolidatedReport without raising" for every input. -/
theorem C5_counterexample :
    consolidateAllResults (.dict [("components", .dict [("x", .list [])])])
      (.dict []) "s1" "t1"
      = .error "AttributeError: object has no attribute get" := by
  rfl

theorem succFold_ok (ckvs : PyDict)
    (hvals : ∀ kv ∈ ckvs, ∃ vkvs, kv.2 = PyVal.dict vkvs) (acc : Int) :
    ∃ succ : Int,
      (ckvs.foldlM
        (fun acc kv => do
          let ev ← pyGetN kv.2 "error"
          pure (if pyTruthy ev then acc else acc + 1)) acc
        : Except String Int) = .ok succ ∧
      acc ≤ succ ∧ succ ≤ acc + ckvs.length := by
  induction ckvs generalizing acc with
  | nil => exact ⟨acc, rfl, le_refl acc, by simp⟩
  | cons hd tl ih =>
      obtain ⟨hv, hvtl⟩ := List.forall_mem_cons.mp hvals
      obtain ⟨vkvs, hvk⟩ := hv
      have hget : pyGetN hd.2 "error" = .ok ((pyLookup vkvs "error").getD .none) := by
        rw [hvk]
        rfl
      set nv : Int := if pyTruthy ((pyLookup vkvs "error").getD .none) then acc else acc + 1
        with hnv
      obtain ⟨succ, hfold, hle1, hle2⟩ := ih hvtl nv
      refine ⟨succ, ?_, ?_, ?_⟩
      · simp only [List.foldlM_cons, hget, ok_bind, pure_eq_ok]
        exact hfold
      · have : acc ≤ nv := by
          rw [hnv]
          split <;> omega
        omega
      · have : nv ≤ acc + 1 := by
          rw [hnv]
          split <;> omega
        simp only [List.length_cons]
        omega

/-- C5 amended — For every results mapping and service-status mapping,
*provided* every value of the selected components mapping is itself a
mapping, `_consolidate_all_results` returns a consolidated report without
raising: its `components` entry is the selected mapping (defaulting to the
empty mapping when both `components` and `final_components` are absent, in
which case both metric counts are zero), `total_components` is the number
of components and `successful_components` lies between 0 and that total,
and `service_health` defaults to `'unknown'`. -/
theorem C5_consolidate_total_on_wellformed (rkvs skvs ckvs : PyDict) (sid ts : String)
    (hsel : consolidateSelect (.dict rkvs) = .ok (.dict ckvs))
    (hvals : ∀ kv ∈ ckvs, ∃ vkvs, kv.2 = PyVal.dict vkvs) :
    (∃ out : PyDict,
      consolidateAllResults (.dict rkvs) (.dict skvs) sid ts = .ok (.dict out) ∧
      pyLookup out "components" = some (.dict ckvs) ∧
      ∃ succ : Int,
        pyLookup out "metrics" = some (.dict
          [("total_components", .int (ckvs.length : Int)),
           ("successful_components", .int succ),
           ("service_health", (pyLookup skvs "overall_health").getD (.str "unknown"))]) ∧
        0 ≤ succ ∧ succ ≤ ckvs.length) ∧
    (pyLookup rkvs "components" = Option.none →
      pyLookup rkvs "final_components" = Option.none → ckvs = []) := by
  constructor
  · obtain ⟨succ, hfold, h0, h1⟩ := succFold_ok ckvs hvals 0
    refine ⟨pyDictSet (pyDictSet
        [("session_id", .str sid), ("timestamp", .str ts),
         ("service_status", .dict skvs), ("analysis_results", .dict rkvs),
         ("consolidation_version", .str "2.0")]
        "components" (.dict ckvs)) "metrics" (.dict
        [("total_components", .int (ckvs.length : Int)),
         ("successful_components", .int succ),
         ("service_health", (pyLookup skvs "overall_health").getD (.str "unknown"))]),
      ?_, ?_, succ, ?_, h0, by simpa using h1⟩
    · unfold consolidateAllResults
      rw [hsel, ok_bind]
      simp only [pyLen, ok_bind, pyItems, pure_eq_ok]
      simp only [pure_eq_ok] at hfold
      rw [hfold, ok_bind]
      rw [show pyGetD (.dict skvs) "overall_health" (.str "unknown")
        = .ok ((pyLookup skvs "overall_health").getD (.str "unknown")) from rfl, ok_bind]
    · simp [pyDictSet, pyLookup]
    · simp [pyDictSet, pyLookup]
  · intro hc hfc
    have : consolidateSelect (.dict rkvs) = .ok (.dict []) := by
      simp [consolidateSelect, pyGetD, pyGetN, hc, hfc, ok_bind, pyTruthy]
    rw [this] at hsel
    cases hsel
    rfl

/-- Witness for C5 (amended): a well-formed components mapping with one
clean and one errored component consolidates successfully. -/
theorem C5_witness :
    (∃ out : PyDict,
      consolidateAllResults
        (.dict [("components", .dict [("web_search", .dict []),
          ("pre_pitch", .dict [("error", .str "boom")])])])
        (.dict [("overall_health", .str "good")]) "s1" "t1" = .ok (.dict out) ∧
      pyLookup out "components" = some (.dict [("web_search", .dict []),
        ("pre_pitch", .dict [("error", .str "boom")])]) ∧
      ∃ succ : Int,
        pyLookup out "metrics" = some (.dict
          [("total_components", .int (List.length [("web_search", PyVal.dict []),
            ("pre_pitch", PyVal.dict [("error", PyVal.str "boom")])] : Int)),
           ("successful_components", .int succ),
           ("service_health",
             (pyLookup [("overall_health", PyVal.str "good")] "overall_health").getD
               (.str "unknown"))]) ∧
        0 ≤ succ ∧
        succ ≤ List.length [("web_search", PyVal.dict []),
          ("pre_pitch", PyVal.dict [("error", PyVal.str "boom")])]) ∧
    (pyLookup [("components", PyVal.dict [("web_search", PyVal.dict []),
        ("pre_pitch", PyVal.dict [("error", PyVal.str "boom")])])] "components"
        = Option.none →
      pyLookup [("components", PyVal.dict [("web_search", PyVal.dict []),
        ("pre_pitch", PyVal.dict [("error", PyVal.str "boom")])])] "final_components"
        = Option.none →
      [("web_search", PyVal.dict []),
       ("pre_pitch", PyVal.dict [("error", PyVal.str "boom")])] = []) :=
  C5_consolidate_total_on_wellformed
    [("components", .dict [("web_search", .dict []),
      ("pre_pitch", .dict [("error", .str "boom")])])]
    [("overall_health", .str "good")]
    [("web_search", .dict []), ("pre_pitch", .dict [("error", .str "boom")])]
    "s1" "t1" rfl
    (by
      intro kv hkv
      simp only [List.mem_cons, List.mem_singleton] at hkv
      rcases hkv with h | h | h
      · exact ⟨[], by rw [h]⟩
      · exact ⟨[("error", .str "boom")], by rw [h]⟩
      · cases h)

end V800

namespace V800

/-! ## C9: `analyze_sentiment` totality, distribution sum and score bounds -/

theorem classifyPost_sum (a : SentAcc) (i : Nat) (post : PyDict) :
    (classifyPost a i post).pos + (classifyPost a i post).neg +
      (classifyPost a i post).neu = a.pos + a.neg + a.neu + 1 := by
  unfold classifyPost
  dsimp only
  split
  · dsimp only
    omega
  · split
    · dsimp only
      omega
    · split
      · dsimp only
        omega
      · dsimp only
        omega

theorem foldClassify_sum (l : List (Nat × PyDict)) (a : SentAcc) :
    ((l.foldl (fun acc iv => classifyPost acc iv.1 iv.2) a).pos +
     (l.foldl (fun acc iv => classifyPost acc iv.1 iv.2) a).neg +
     (l.foldl (fun acc iv => classifyPost acc iv.1 iv.2) a).neu)
      = a.pos + a.neg + a.neu + l.length := by
  induction l generalizing a with
  | nil => simp
  | cons hd tl ih =>
      simp only [List.foldl_cons, List.length_cons]
      rw [ih (classifyPost a hd.1 hd.2), classifyPost_sum]
      omega

theorem round_mono_rat (x y : ℚ) (h : x ≤ y) : round x ≤ round y := by
  rw [round_eq, round_eq]
  exact Int.floor_le_floor (by linarith)

theorem round2_bound (q : ℚ) (a b : ℤ) (ha : (a : ℚ) ≤ q) (hb : q ≤ (b : ℚ)) :
    (a : ℚ) ≤ round2 q ∧ round2 q ≤ (b : ℚ) := by
  have h1 : (a * 100 : ℤ) ≤ round (q * 100) := by
    have := round_mono_rat ((a : ℚ) * 100) (q * 100) (by linarith)
    rwa [show ((a : ℚ) * 100) = ((a * 100 : ℤ) : ℚ) by push_cast; ring, round_intCast] at this
  have h2 : round (q * 100) ≤ (b * 100 : ℤ) := by
    have := round_mono_rat (q * 100) ((b : ℚ) * 100) (by linarith)
    rwa [show ((b : ℚ) * 100) = ((b * 100 : ℤ) : ℚ) by push_cast; ring, round_intCast] at this
  constructor
  · rw [round2, le_div_iff (by norm_num : (0 : ℚ) < 100)]
    calc (a : ℚ) * 100 = ((a * 100 : ℤ) : ℚ) := by push_cast; ring
      _ ≤ ((round (q * 100) : ℤ) : ℚ) := by exact_mod_cast h1
  · rw [round2, div_le_iff (by norm_num : (0 : ℚ) < 100)]
    calc ((round (q * 100) : ℤ) : ℚ) ≤ ((b * 100 : ℤ) : ℚ) := by exact_mod_cast h2
      _ = (b : ℚ) * 100 := by push_cast; ring

/-- C9 — `analyze_sentiment` never raises: on the empty post list it
returns the fixed neutral payload with score `0.0` (the division by
`total` is guarded away); on every non-empty list the returned
`distribution` satisfies `positive + negative + neutral = total =
len(posts)` and the returned `score` lies in `[-100, 100]`. -/
theorem C9_analyze_sentiment_safe (posts : List PyDict) :
    analyzeSentiment [] = .dict [("sentiment", .str "neutral"), ("score", .rat 0),
      ("analysis_quality", .str "no_data"),
      ("message", .str "Nenhum post fornecido para análise")] ∧
    (posts ≠ [] → ∃ p n u : ℕ, ∃ sc : ℚ,
      (∃ out : PyDict, analyzeSentiment posts = .dict out ∧
        pyLookup out "distribution" = some (.dict
          [("positive", .int (p : Int)), ("negative", .int (n : Int)),
           ("neutral", .int (u : Int)), ("total", .int (posts.length : Int))]) ∧
        pyLookup out "score" = some (.rat sc)) ∧
      p + n + u = posts.length ∧ -100 ≤ sc ∧ sc ≤ 100) := by
  refine ⟨rfl, ?_⟩
  intro hne
  have hempty : posts.isEmpty = false := by
    simp [List.isEmpty_eq_true, hne]
  set acc := posts.enum.foldl (fun a iv => classifyPost a iv.1 iv.2)
    { pos := 0, neg := 0, neu := 0, detailed := [] } with hacc
  have hsum : acc.pos + acc.neg + acc.neu = posts.length := by
    rw [hacc, foldClassify_sum]
    simp
  have htpos : (0 : ℚ) < (posts.length : ℚ) := by
    have : 0 < posts.length := List.length_pos.mpr hne
    exact_mod_cast this
  set posFrac : ℚ := ((acc.pos : ℚ) / (posts.length : ℚ)) with hpf
  set negFrac : ℚ := ((acc.neg : ℚ) / (posts.length : ℚ)) with hnf
  have hpfb : 0 ≤ posFrac ∧ posFrac ≤ 1 := by
    constructor
    · exact div_nonneg (by positivity) (le_of_lt htpos)
    · rw [hpf, div_le_one htpos]
      have : acc.pos ≤ posts.length := by omega
      exact_mod_cast this
  have hnfb : 0 ≤ negFrac ∧ negFrac ≤ 1 := by
    constructor
    · exact div_nonneg (by positivity) (le_of_lt htpos)
    · rw [hnf, div_le_one htpos]
      have : acc.neg ≤ posts.length := by omega
      exact_mod_cast this
  set overall : String × ℚ :=
    (if posFrac > negFrac ∧ posFrac > 2 / 5 then ("positive", posFrac * 100)
     else if negFrac > posFrac ∧ negFrac > 2 / 5 then ("negative", negFrac * (-100))
     else ("neutral", 0)) with hoverall
  have hvb : -100 ≤ overall.2 ∧ overall.2 ≤ 100 := by
    rw [hoverall]
    split
    · constructor <;> simp <;> nlinarith [hpfb.1, hpfb.2]
    · split
      · constructor <;> simp <;> nlinarith [hnfb.1, hnfb.2]
      · simp
  obtain ⟨hs1, hs2⟩ := round2_bound overall.2 (-100) 100 (by exact_mod_cast hvb.1)
    (by exact_mod_cast hvb.2)
  refine ⟨acc.pos, acc.neg, acc.neu, round2 overall.2,
    ⟨[("sentiment", .str overall.1), ("score", .rat (round2 overall.2)),
      ("confidence", .rat (round2 (min (|posFrac - negFrac| * 2) 1))),
      ("distribution", .dict [("positive", .int (acc.pos : Int)),
        ("negative", .int (acc.neg : Int)), ("neutral", .int (acc.neu : Int)),
        ("total", .int (posts.length : Int))]),
      ("percentages", .dict [("positive", .rat (round1 (posFrac * 100))),
        ("negative", .rat (round1 (negFrac * 100))),
        ("neutral", .rat (round1 (((acc.neu : ℚ) / (posts.length : ℚ)) * 100)))]),
      ("analysis_quality", .str "comprehensive_analysis"),
      ("detailed_breakdown", .list (acc.detailed.take 5))], ?_, ?_, ?_⟩, hsum, ?_, ?_⟩
  · unfold analyzeSentiment
    rw [hempty]
    simp only [Bool.false_eq_true, if_false]
  · simp [pyLookup]
  · simp [pyLookup]
  · exact_mod_cast hs1
  · exact_mod_cast hs2

/-- Witness for C9: one positive post. -/
theorem C9_witness :
    [[("text", PyVal.str "produto excelente, adorei")]] ≠ [] ∧
    (∃ p n u : ℕ, ∃ sc : ℚ,
      (∃ out : PyDict,
        analyzeSentiment [[("text", PyVal.str "produto excelente, adorei")]] = .dict out ∧
        pyLookup out "distribution" = some (.dict
          [("positive", .int (p : Int)), ("negative", .int (n : Int)),
           ("neutral", .int (u : Int)),
           ("total", .int (List.length [[("text", PyVal.str "produto excelente, adorei")]] : Int))]) ∧
        pyLookup out "score" = some (.rat sc)) ∧
      p + n + u = List.length [[("text", PyVal.str "produto excelente, adorei")]] ∧
      -100 ≤ sc ∧ sc ≤ 100) :=
  ⟨by simp,
    (C9_analyze_sentiment_safe [[("text", PyVal.str "produto excelente, adorei")]]).2
      (by simp)⟩

end V800

namespace V800

/-! ## C10: `search_all_platforms` success aggregation -/

/-- The `platform_results.get("success")` truthiness check of
`search_all_platforms`. -/
def getSuccess (pr : PyVal) : Bool :=
  match pyGetN pr "success" with
  | .ok v => pyTruthy v
  | .error _ => false

theorem processYoutubeResults_ok_shape (data : PyVal) (q : String) (pd : PyVal)
    (h : processYoutubeResults data q = .ok pd) :
    ∃ rs : List PyVal, pd = .dict [("success", .bool true), ("platform", .str "youtube"),
      ("results", .list rs), ("total_found", .int (rs.length : Int)),
      ("query", .str q), ("data_quality", .str "api_data")] := by
  unfold processYoutubeResults at h
  rcases h1 : pyGetD data "data" (.list []) with e | inner <;> rw [h1] at h
  · rw [error_bind] at h
    cases h
  · rw [ok_bind] at h
    rcases h2 : pyGetD data "items" inner with e | itemsV <;> rw [h2] at h
    · rw [error_bind] at h
      cases h
    · rw [ok_bind] at h
      rcases h3 : pyIter itemsV with e | items <;> rw [h3] at h
      · rw [error_bind] at h
        cases h
      · rw [ok_bind] at h
        rcases h4 : items.mapM (fun it => processYoutubeItem it q) with e | rs <;>
          rw [h4] at h
        · rw [error_bind] at h
          cases h
        · rw [ok_bind, pure_eq_ok] at h
          cases h
          exact ⟨rs, rfl⟩

theorem processTwitterResults_ok_shape (data : PyVal) (q : String) (pd : PyVal)
    (h : processTwitterResults data q = .ok pd) :
    ∃ rs : List PyVal, pd = .dict [("success", .bool true), ("platform", .str "twitter"),
      ("results", .list rs), ("total_found", .int (rs.length : Int)),
      ("query", .str q), ("data_quality", .str "api_data")] := by
  unfold processTwitterResults at h
  rcases h1 : pyGetD data "data" (.list []) with e | itemsV <;> rw [h1] at h
  · rw [error_bind] at h
    cases h
  · rw [ok_bind] at h
    rcases h3 : pyIter itemsV with e | items <;> rw [h3] at h
    · rw [error_bind] at h
      cases h
    · rw [ok_bind] at h
      rcases h4 : items.mapM (fun it => processTwitterItem it q) with e | rs <;>
        rw [h4] at h
      · rw [error_bind] at h
        cases h
      · rw [ok_bind, pure_eq_ok] at h
        cases h
        exact ⟨rs, rfl⟩

theorem processLinkedinResults_ok_shape (data : PyVal) (q : String) (pd : PyVal)
    (h : processLinkedinResults data q = .ok pd) :
    ∃ rs : List PyVal, pd = .dict [("success", .bool true), ("platform", .str "linkedin"),
      ("results", .list rs), ("total_found", .int (rs.length : Int)),
      ("query", .str q), ("data_quality", .str "api_data")] := by
  unfold processLinkedinResults at h
  rcases h1 : pyGetD data "elements" (.list []) with e | itemsV <;> rw [h1] at h
  · rw [error_bind] at h
    cases h
  · rw [ok_bind] at h
    rcases h3 : pyIter itemsV with e | items <;> rw [h3] at h
    · rw [error_bind] at h
      cases h
    · rw [ok_bind] at h
      rcases h4 : items.mapM (fun it => processLinkedinItem it q) with e | rs <;>
        rw [h4] at h
      · rw [error_bind] at h
        cases h
      · rw [ok_bind, pure_eq_ok] at h
        cases h
        exact ⟨rs, rfl⟩

theorem searchYoutube_shape (env : McpEnv) (q : String) (m : Nat) :
    ∃ kvs rs, searchYoutube env q m = .dict kvs ∧
      pyLookup kvs "success" = some (.bool true) ∧
      pyLookup kvs "results" = some (.list rs) := by
  have hbasic : ∃ kvs rs, youtubeBasicAnalysis env q m = .dict kvs ∧
      pyLookup kvs "success" = some (.bool true) ∧
      pyLookup kvs "results" = some (.list rs) := by
    refine ⟨youtubeBasicKvs env q m, youtubeBasicResults env q m, rfl, ?_, ?_⟩ <;>
      simp [youtubeBasicKvs, pyLookup]
  unfold searchYoutube
  cases henv : env.isAvailable
  · simpa using hbasic
  · simp only [Bool.not_true, Bool.false_eq_true, if_false]
    rcases env.ytResp with _ | r
    · exact hbasic
    · dsimp only
      by_cases h401 : r.status = 401
      · rw [if_pos h401]
        exact hbasic
      · rw [if_neg h401]
        by_cases h403 : r.status = 403
        · rw [if_pos h403]
          exact hbasic
        · rw [if_neg h403]
          by_cases h200 : r.status = 200
          · rw [if_pos h200]
            rcases r.body with e | data
            · exact hbasic
            · dsimp only
              rcases hpr : processYoutubeResults data q with e | pd
              · exact hbasic
              · obtain ⟨rs, hshape⟩ := processYoutubeResults_ok_shape data q pd hpr
                subst hshape
                exact ⟨_, rs, rfl, by simp [pyLookup], by simp [pyLookup]⟩
          · rw [if_neg h200]
            exact hbasic

theorem searchTwitter_shape (env : McpEnv) (q : String) (m : Nat) :
    ∃ kvs rs, searchTwitter env q m = .dict kvs ∧
      pyLookup kvs "success" = some (.bool true) ∧
      pyLookup kvs "results" = some (.list rs) := by
  have hsim : ∃ kvs rs, simulatedTwitterData q m = .dict kvs ∧
      pyLookup kvs "success" = some (.bool true) ∧
      pyLookup kvs "results" = some (.list rs) := by
    refine ⟨simulatedTwitterKvs q m, simulatedTwitterResults q m, rfl, ?_, ?_⟩ <;>
      simp [simulatedTwitterKvs, pyLookup]
  unfold searchTwitter
  cases henv : env.isAvailable
  · simpa using hsim
  · simp only [Bool.not_true, Bool.false_eq_true, if_false]
    rcases env.twResp with _ | r
    · exact hsim
    · dsimp only
      by_cases h200 : r.status ≠ 200
      · rw [if_pos h200]
        exact hsim
      · rw [if_neg h200]
        rcases r.body with e | data
        · exact hsim
        · dsimp only
          rcases hpr : processTwitterResults data q with e | pd
          · exact hsim
          · obtain ⟨rs, hshape⟩ := processTwitterResults_ok_shape data q pd hpr
            subst hshape
            exact ⟨_, rs, rfl, by simp [pyLookup], by simp [pyLookup]⟩

theorem searchLinkedin_shape (env : McpEnv) (q : String) (m : Nat) :
    ∃ kvs rs, searchLinkedin env q m = .dict kvs ∧
      pyLookup kvs "success" = some (.bool true) ∧
      pyLookup kvs "results" = some (.list rs) := by
  have hsim : ∃ kvs rs, simulatedLinkedinData q m = .dict kvs ∧
      pyLookup kvs "success" = some (.bool true) ∧
      pyLookup kvs "results" = some (.list rs) := by
    refine ⟨simulatedLinkedinKvs q m, simulatedLinkedinResults q m, rfl, ?_, ?_⟩ <;>
      simp [simulatedLinkedinKvs, pyLookup]
  unfold searchLinkedin
  cases henv : env.isAvailable
  · simpa using hsim
  · simp only [Bool.not_true, Bool.false_eq_true, if_false]
    rcases env.liResp with _ | r
    · exact hsim
    · dsimp only
      by_cases h200 : r.status ≠ 200
      · rw [if_pos h200]
        exact hsim
      · rw [if_neg h200]
        rcases r.body with e | data
        · exact hsim
        · dsimp only
          rcases hpr : processLinkedinResults data q with e | pd
          · exact hsim
          · obtain ⟨rs, hshape⟩ := processLinkedinResults_ok_shape data q pd hpr
            subst hshape
            exact ⟨_, rs, rfl, by simp [pyLookup], by simp [pyLookup]⟩

end V800

namespace V800

/-- C10 — For every query (and oracle state), `search_all_platforms`
returns a mapping whose `success` field is true iff at least one platform
entry reports success; the `instagram` entry always reports success false
with an empty results list and `total_found` 0; and each of the YouTube,
Twitter and LinkedIn searches catches its own errors and reports success
(falling back to basic/simulated data rather than raising), so the
overall flag is determined solely by those three. -/
theorem C10_search_all_platforms (env : McpEnv) (q : String) (m : Nat) :
    ∃ out : PyDict, searchAllPlatforms env q m = .ok (.dict out) ∧
      pyLookup out "success" = some (.bool (getSuccess (searchYoutube env q m)
        || getSuccess (searchTwitter env q m) || getSuccess (searchLinkedin env q m)
        || getSuccess (searchInstagram q m))) ∧
      (∃ pkvs, pyLookup out "platforms" = some (.dict pkvs) ∧
        pyLookup pkvs "youtube" = some (searchYoutube env q m) ∧
        pyLookup pkvs "twitter" = some (searchTwitter env q m) ∧
        pyLookup pkvs "linkedin" = some (searchLinkedin env q m) ∧
        pyLookup pkvs "instagram" = some (searchInstagram q m)) ∧
      getSuccess (searchInstagram q m) = false ∧
      (∃ ikvs, searchInstagram q m = .dict ikvs ∧
        pyLookup ikvs "success" = some (.bool false) ∧
        pyLookup ikvs "results" = some (.list []) ∧
        pyLookup ikvs "total_found" = some (.int 0)) ∧
      getSuccess (searchYoutube env q m) = true ∧
      getSuccess (searchTwitter env q m) = true ∧
      getSuccess (searchLinkedin env q m) = true := by
  obtain ⟨ykvs, yrs, hy, hys, hyr⟩ := searchYoutube_shape env q m
  obtain ⟨tkvs, trs, ht, hts, htr⟩ := searchTwitter_shape env q m
  obtain ⟨lkvs, lrs, hl, hls, hlr⟩ := searchLinkedin_shape env q m
  have hgy : getSuccess (searchYoutube env q m) = true := by
    rw [hy]
    simp [getSuccess, pyGetN, pyGetD, hys, pyTruthy]
  have hgt : getSuccess (searchTwitter env q m) = true := by
    rw [ht]
    simp [getSuccess, pyGetN, pyGetD, hts, pyTruthy]
  have hgl : getSuccess (searchLinkedin env q m) = true := by
    rw [hl]
    simp [getSuccess, pyGetN, pyGetD, hls, pyTruthy]
  have hgi : getSuccess (searchInstagram q m) = false := by
    simp [getSuccess, searchInstagram, pyGetN, pyGetD, pyLookup, pyTruthy]
  have hrun : searchAllPlatforms env q m = .ok (.dict
      [("query", .str q), ("timestamp", .str env.nowIso),
       ("platforms_searched", .list [.str "youtube", .str "twitter",
         .str "linkedin", .str "instagram"]),
       ("platforms_successful", .list [.str "youtube", .str "twitter", .str "linkedin"]),
       ("total_results", .int ((yrs.length : Int) + (trs.length : Int) + (lrs.length : Int))),
       ("search_quality", .str (if env.isAvailable then "real_data" else "simulated")),
       ("platforms", .dict [("youtube", .dict ykvs), ("twitter", .dict tkvs),
         ("linkedin", .dict lkvs), ("instagram", searchInstagram q m)]),
       ("success", .bool true)]) := by
    unfold searchAllPlatforms
    rw [hy, ht, hl]
    simp [addPlatform, pyIndex, pyLookup, pyItems, pyDictSet, pyGetN, pyGetD,
      hys, hyr, hts, htr, hls, hlr, pyTruthy, pyLen, searchInstagram, ok_bind, pure_eq_ok]
  refine ⟨_, hrun, ?_, ⟨[("youtube", .dict ykvs), ("twitter", .dict tkvs),
    ("linkedin", .dict lkvs), ("instagram", searchInstagram q m)], ?_, ?_, ?_, ?_, ?_⟩,
    hgi, ⟨_, rfl, by simp [searchInstagram, pyLookup], by simp [searchInstagram, pyLookup],
      by simp [searchInstagram, pyLookup]⟩, hgy, hgt, hgl⟩
  · rw [hgy, hgt, hgl, hgi]
    simp [pyLookup]
  · simp [pyLookup]
  · rw [hy]
    simp [pyLookup]
  · rw [ht]
    simp [pyLookup]
  · rw [hl]
    simp [pyLookup]
  · simp [pyLookup]

end V800

namespace V800

/-! ## Trace classification lemmas for the driver -/

theorem saveComponents_evs (c : Collab) (items : PyDict) :
    ∀ ev ∈ (saveComponents c items).1, ∃ n, ev = Ev.etapa n := by
  induction items with
  | nil => intro ev hev; cases hev
  | cons hd tl ih =>
      obtain ⟨k, v⟩ := hd
      intro ev hev
      unfold saveComponents at hev
      rcases hout : c.salvarEtapa ("componente_" ++ k ++ "_final") v with e | u <;>
        simp only [hout] at hev
      · simp only [List.mem_singleton] at hev
        exact ⟨_, hev⟩
      · simp only [List.mem_cons] at hev
        rcases hev with h | h
        · exact ⟨_, h⟩
        · exact ih ev h

theorem saveCompsStep_evs (c : Collab) (report comps : PyVal) :
    ∀ ev ∈ (saveCompsStep c report comps).1, ∃ n, ev = Ev.etapa n := by
  intro ev hev
  unfold saveCompsStep at hev
  by_cases ht : pyTruthy comps
  · rw [if_pos ht] at hev
    rcases hit : (do
        let cv ← pyIndex report "components"
        pyItems cv : Except String PyDict) with e | items <;> simp only [hit] at hev
    · cases hev
    · exact saveComponents_evs c items ev hev
  · rw [if_neg ht] at hev
    cases hev

theorem saveMetricsStep_evs (c : Collab) (report : PyVal) :
    ∀ ev ∈ (saveMetricsStep c report).1, ∃ n, ev = Ev.etapa n := by
  intro ev hev
  unfold saveMetricsStep at hev
  rcases h1 : pyGetN report "metrics" with e | mets <;> simp only [h1] at hev
  · cases hev
  · by_cases ht : pyTruthy mets
    · rw [if_pos ht] at hev
      rcases h2 : pyIndex report "metrics" with e | mv <;> simp only [h2] at hev
      · cases hev
      · rcases h3 : c.salvarEtapa "metricas_finais" mv with e | u <;> simp only [h3] at hev <;>
          simp only [List.mem_singleton] at hev <;> exact ⟨_, hev⟩
    · rw [if_neg ht] at hev
      cases hev

theorem saveBody_evs (c : Collab) (report : PyVal) :
    ∀ ev ∈ (saveBody c report).1, ∃ n, ev = Ev.etapa n := by
  intro ev hev
  unfold saveBody at hev
  rcases h1 : c.salvarEtapa "relatorio_final_consolidado" report with e | u <;>
    simp only [h1] at hev
  · simp only [List.mem_singleton] at hev
    exact ⟨_, hev⟩
  · rcases h2 : pyGetN report "components" with e | comps <;> simp only [h2] at hev
    · simp only [List.mem_singleton] at hev
      exact ⟨_, hev⟩
    · have hcs := saveCompsStep_evs c report comps
      rcases h3 : saveCompsStep c report comps with ⟨evs, r⟩
      rw [h3] at hcs; simp only [h3] at hev
      cases r <;> simp only at hev
      · simp only [List.mem_cons] at hev
        rcases hev with h | h
        · exact ⟨_, h⟩
        · exact hcs ev h
      · have hms := saveMetricsStep_evs c report
        rcases h4 : saveMetricsStep c report with ⟨evs2, r2⟩
        rw [h4] at hms; simp only [h4] at hev
        simp only [List.mem_cons, List.mem_append] at hev
        rcases hev with h | h | h
        · exact ⟨_, h⟩
        · exact hcs ev h
        · exact hms ev h

theorem saveToAll_evs (c : Collab) (report : PyVal) (sid : String) :
    ∀ ev ∈ (saveToAllCategories c report sid).1,
      (∃ n, ev = Ev.etapa n) ∨ (∃ n, ev = Ev.erro n) := by
  intro ev hev
  unfold saveToAllCategories at hev
  have hBevs := saveBody_evs c report
  rcases hb : saveBody c report with ⟨evsB, rB⟩
  rw [hb] at hBevs
  simp only [hb] at hev
  cases rB with
  | ok u =>
      dsimp only at hev
      exact Or.inl (hBevs ev hev)
  | error e =>
      dsimp only at hev
      rcases hse : c.salvarErro "erro_salvamento_relatorio" e with e2 | u <;>
        simp only [hse, List.mem_append, List.mem_singleton] at hev <;>
        rcases hev with h | h
      · exact Or.inl (hBevs ev h)
      · exact Or.inr ⟨_, h⟩
      · exact Or.inl (hBevs ev h)
      · exact Or.inr ⟨_, h⟩

theorem phase4Body_evs (c : Collab) (data : PyDict) (final : PyVal) :
    ∀ ev ∈ (phase4Body c data final).1, ev = Ev.enhanced := by
  intro ev hev
  unfold phase4Body at hev
  rcases h1 : pyUnionD data final with e | merged <;> simp only [h1] at hev
  · cases hev
  · rcases h2 : c.enhancedAnalysis (.dict merged) with e | er <;> simp only [h2] at hev
    · simp only [List.mem_singleton] at hev
      exact hev
    · rcases h3 : mergeEnhancedResults final er with e | f2 <;> simp only [h3] at hev <;>
        simp only [List.mem_singleton] at hev <;> exact hev

theorem phase4_evs (c : Collab) (data : PyDict) (final : PyVal) :
    ∀ ev ∈ (phase4 c data final).1, ev = Ev.enhanced ∨ ∃ n, ev = Ev.erro n := by
  intro ev hev
  unfold phase4 at hev
  have hres := phase4Body_evs c data final
  rcases hb : phase4Body c data final with ⟨evsR, rR⟩
  rw [hb] at hres
  simp only [hb] at hev
  cases rR with
  | ok f2 =>
      dsimp only at hev
      exact Or.inl (hres ev hev)
  | error e =>
      dsimp only at hev
      rcases hse : c.salvarErro "enhanced_orchestrator_error" e with e2 | u <;>
        simp only [hse, List.mem_append, List.mem_singleton] at hev <;>
        rcases hev with h | h
      · exact Or.inl (hres ev h)
      · exact Or.inr ⟨_, h⟩
      · exact Or.inl (hres ev h)
      · exact Or.inr ⟨_, h⟩

/-- The events `runTail` can emit. -/
def tailEv (sid : String) (ev : Ev) : Prop :=
  ev = Ev.enhanced ∨ (∃ n, ev = Ev.etapa n) ∨ (∃ n, ev = Ev.erro n) ∨
    ev = Ev.status sid "completed" true

theorem runTail_evs (c : Collab) (data : PyDict) (sid : String) (execTime : Nat)
    (ts : String) (svc cr final1 : PyVal) (st1 : St) :
    ∀ ev ∈ (runTail c data sid execTime ts svc cr final1 st1).2.1, tailEv sid ev := by
  intro ev hev
  unfold runTail at hev
  rcases hcb8 : callCb c.progressCb 8 "🧠 Aplicando análise psicológica avançada..."
    with e | u <;> simp only [hcb8] at hev
  · cases hev
  · have hP4 := phase4_evs c data final1
    rcases hp4 : phase4 c data final1 with ⟨evs5, r5⟩
    rw [hp4] at hP4
    simp only [hp4] at hev
    have hev5 : ∀ ev ∈ evs5, tailEv sid ev := by
      intro ev hev
      rcases hP4 ev hev with h | h
      · exact Or.inl h
      · exact Or.inr (Or.inr (Or.inl h))
    cases r5 with
    | error e =>
        dsimp only at hev
        exact hev5 ev hev
    | ok final2 =>
        dsimp only at hev
        rcases hcb12 : callCb c.progressCb 12 "📊 Consolidando resultados finais..."
          with e | u <;> simp only [hcb12] at hev
        · exact hev5 ev hev
        · rcases hcons : consolidateAllResults final2 svc sid ts with e | report <;>
            simp only [hcons] at hev
          · exact hev5 ev hev
          · rcases hcb13 : callCb c.progressCb 13 "💾 Salvando em todas as categorias..."
              with e | u <;> simp only [hcb13] at hev
            · exact hev5 ev hev
            · have hSv := saveToAll_evs c report sid
              rcases hsv : saveToAllCategories c report sid with ⟨evs7, r7⟩
              rw [hsv] at hSv
              simp only [hsv] at hev
              have hev7 : ∀ ev ∈ evs7, tailEv sid ev := by
                intro ev hev
                rcases hSv ev hev with h | h
                · exact Or.inr (Or.inl h)
                · exact Or.inr (Or.inr (Or.inl h))
              cases r7 with
              | error e =>
                  dsimp only at hev
                  rcases List.mem_append.mp hev with h | h
                  · exact hev5 ev h
                  · exact hev7 ev h
              | ok u2 =>
                  dsimp only at hev
                  rcases hmk : stMark st1 sid (fun r =>
                      { r with status := "completed", executionTime := some execTime })
                    with e | st2 <;> simp only [hmk] at hev
                  · rcases List.mem_append.mp hev with h | h
                    · exact hev5 ev h
                    · exact hev7 ev h
                  · rcases hidx : (do
                        let es ← pyIndex cr "execution_stats"
                        let sr ← pyIndex es "success_rate"
                        let sc ← pyIndex cr "successful_components"
                        let n ← pyLen sc
                        pure (sr, n) : Except String (PyVal × Nat)) with e | p <;>
                      simp only [hidx] at hev
                    · rcases List.mem_append.mp hev with h | h
                      · rcases List.mem_append.mp h with h2 | h2
                        · exact hev5 ev h2
                        · exact hev7 ev h2
                      · simp only [List.mem_singleton] at h
                        exact Or.inr (Or.inr (Or.inr h))
                    · obtain ⟨sr, n⟩ := p
                      try dsimp only at hev
                      rcases List.mem_append.mp hev with h | h
                      · rcases List.mem_append.mp h with h2 | h2
                        · exact hev5 ev h2
                        · exact hev7 ev h2
                      · simp only [List.mem_singleton] at h
                        exact Or.inr (Or.inr (Or.inr h))

end V800

namespace V800

/-- The critical `except` of `execute_synchronized_analysis` only appends
`salvar_erro` / failed-status events after the `try` body's trace. -/
theorem run_trace (c : Collab) (data : PyDict) (sid : String) (t0 t1 : Nat)
    (ts : String) (st0 : St) :
    ∃ suffix, (run c data sid t0 t1 ts st0).2.1
        = (runBody c data sid t0 t1 ts st0).2.1 ++ suffix ∧
      ∀ ev ∈ suffix, (∃ n, ev = Ev.erro n) ∨ ev = Ev.status sid "failed" true := by
  unfold run
  rcases hb : runBody c data sid t0 t1 ts st0 with ⟨st, evs, r⟩
  cases r with
  | ok env =>
      exact ⟨[], by simp, by intro ev hev; cases hev⟩
  | error e =>
      dsimp only
      rcases hse : c.salvarErro "super_orchestrator_critico" e with e2 | u
      · refine ⟨[Ev.erro "super_orchestrator_critico"], by simp, ?_⟩
        intro ev hev
        simp only [List.mem_singleton] at hev
        exact Or.inl ⟨_, hev⟩
      · rcases hmk : stMark st sid (fun r =>
            { r with status := "failed", errorMsg := some e }) with e2 | st2
        · refine ⟨[Ev.erro "super_orchestrator_critico"], by simp, ?_⟩
          intro ev hev
          simp only [List.mem_singleton] at hev
          exact Or.inl ⟨_, hev⟩
        · refine ⟨[Ev.erro "super_orchestrator_critico", Ev.status sid "failed" true],
            by simp, ?_⟩
          intro ev hev
          simp only [List.mem_cons, List.mem_singleton, List.not_mem_nil] at hev
          rcases hev with h | h | h
          · exact Or.inl ⟨_, h⟩
          · exact Or.inr h
          · cases h

theorem phase3_low (c : Collab) (cr : PyVal) (data : PyDict) (sid : String)
    (hCb : ∀ i m, callCb c.progressCb i m = .ok ()) :
    (phase3 c cr data sid true).1 = [Ev.master] := by
  unfold phase3
  simp only [if_true, hCb]
  rcases hm : c.masterAnalysis with e | mr <;> simp only [hm]
  rcases hc : combineOrchestratorResults cr mr (.dict data) sid with e | f <;>
    simp only [hc]

theorem phase3_high (c : Collab) (cr : PyVal) (data : PyDict) (sid : String) :
    phase3 c cr data sid false = ([], enhanceComponentResults cr (.dict data) sid) := by
  unfold phase3
  simp only [Bool.false_eq_true, if_false]
  rcases he : enhanceComponentResults cr (.dict data) sid with e | f <;> simp only [he]

theorem not_tailEv_master (sid : String) : ¬ tailEv sid Ev.master := by
  intro h
  rcases h with h | ⟨n, h⟩ | ⟨n, h⟩ | h <;> cases h

theorem not_tailEv_phase3Done (sid : String) (f : PyVal) :
    ¬ tailEv sid (Ev.phase3Done f) := by
  intro h
  rcases h with h | ⟨n, h⟩ | ⟨n, h⟩ | h <;> cases h

/-! ## C2: the master-orchestrator fallback triggers iff success_rate < 50 -/

/-- C2 — Under collaborators whose initial persistence call and progress
callback succeed and whose strict executor returns `cr` with an integer
`execution_stats.success_rate` of `k`, `execute_synchronized_analysis`
invokes the master orchestrator iff `k < 50`; when `k ≥ 50` the master
pipeline is not invoked and the phase-3 result passed on (as
`final_results`) is exactly `_enhance_component_results(cr)`. -/
theorem C2_fallback_threshold (c : Collab) (data : PyDict) (sid : String)
    (t0 t1 : Nat) (ts : String) (st0 : St) (cr es : PyVal) (k : Int)
    (hE : c.salvarEtapa "super_orchestrator_iniciado" (initPayload data sid) = .ok ())
    (hCb : ∀ i m, callCb c.progressCb i m = .ok ())
    (hCr : c.executeComponents = .ok cr)
    (hEs : pyIndex cr "execution_stats" = .ok es)
    (hSr : pyIndex es "success_rate" = .ok (.int k)) :
    ((Ev.master ∈ (run c data sid t0 t1 ts st0).2.1) ↔ k < 50) ∧
    (¬ k < 50 → ∀ f, Ev.phase3Done f ∈ (run c data sid t0 t1 ts st0).2.1 →
      enhanceComponentResults cr (.dict data) sid = .ok f) := by
  obtain ⟨suffix, hsuf, hsufev⟩ := run_trace c data sid t0 t1 ts st0
  have hlow : (do
      let es ← pyIndex cr "execution_stats"
      let sr ← pyIndex es "success_rate"
      pyLtInt sr 50 : Except String Bool) = .ok (decide (k < 50)) := by
    simp only [hEs, ok_bind, hSr, pyLtInt]
  by_cases hk : k < 50
  · have hdec : decide (k < 50) = true := by simpa using hk
    have he3 := phase3_low c cr data sid hCb
    refine ⟨⟨fun _ => hk, fun _ => ?_⟩, fun h' => absurd hk h'⟩
    rw [hsuf]
    apply List.mem_append_left
    unfold runBody
    simp only [hE, hCb, hCr, hlow, ok_bind, hdec]
    rcases hp3 : phase3 c cr data sid true with ⟨evs3, r3⟩
    rw [hp3] at he3
    simp only at he3
    subst he3
    cases r3 with
    | error e =>
        simp
    | ok f1 =>
        rcases ht : runTail c data sid t1 ts (checkAllServicesStatus c.aiStatus) cr f1
          (stSet st0 sid (initialSessRec t0)) with ⟨st2, evs5, r5⟩
        simp
  · have hdec : decide (k < 50) = false := by simpa using hk
    have hph := phase3_high c cr data sid
    constructor
    · refine ⟨?_, fun hlt => absurd hlt hk⟩
      intro hmem
      exfalso
      rw [hsuf] at hmem
      rcases List.mem_append.mp hmem with hm | hm
      · revert hm
        unfold runBody
        simp only [hE, hCb, hCr, hlow, ok_bind, hdec, hph]
        rcases he : enhanceComponentResults cr (.dict data) sid with e | f1 <;>
          simp only [he]
        · simp
        · rcases ht : runTail c data sid t1 ts (checkAllServicesStatus c.aiStatus) cr f1
            (stSet st0 sid (initialSessRec t0)) with ⟨st2, evs5, r5⟩
          have htev := runTail_evs c data sid t1 ts (checkAllServicesStatus c.aiStatus)
            cr f1 (stSet st0 sid (initialSessRec t0))
          rw [ht] at htev
          simp only [List.mem_append, List.mem_cons, List.mem_singleton,
            List.not_mem_nil, or_false, false_or]
          intro hm
          rcases hm with ((h | h) | h) | h
          · cases h
          · cases h
          · cases h
          · exact not_tailEv_master sid (htev _ h)
      · rcases hsufev _ hm with ⟨n, h⟩ | h <;> cases h
    · intro _ f hmem
      rw [hsuf] at hmem
      rcases List.mem_append.mp hmem with hm | hm
      · revert hm
        unfold runBody
        simp only [hE, hCb, hCr, hlow, ok_bind, hdec, hph]
        rcases he : enhanceComponentResults cr (.dict data) sid with e | f1 <;>
          simp only [he]
        · intro hm
          simp at hm
        · rcases ht : runTail c data sid t1 ts (checkAllServicesStatus c.aiStatus) cr f1
            (stSet st0 sid (initialSessRec t0)) with ⟨st2, evs5, r5⟩
          have htev := runTail_evs c data sid t1 ts (checkAllServicesStatus c.aiStatus)
            cr f1 (stSet st0 sid (initialSessRec t0))
          rw [ht] at htev
          simp only [List.mem_append, List.mem_cons, List.mem_singleton,
            List.not_mem_nil, or_false, false_or]
          intro hm
          rcases hm with ((h | h) | h) | h
          · cases h
          · cases h
          · cases h
            rfl
          · exact absurd (htev _ h) (not_tailEv_phase3Done sid f)
      · rcases hsufev _ hm with ⟨n, h⟩ | h <;> cases h

end V800

namespace V800

/-- Strict-executor output sitting exactly at the 50% boundary. -/
def boundaryCr : PyVal :=
  .dict [("execution_stats", .dict [("success_rate", .int 50)]),
    ("successful_components", .dict [])]

/-- Collaborators for the C2 witness: everything succeeds and the strict
success rate is exactly 50. -/
def boundaryCollab : Collab :=
  { salvarEtapa := fun _ _ => .ok (), salvarErro := fun _ _ => .ok (),
    aiStatus := .ok (.dict []), executeComponents := .ok boundaryCr,
    masterAnalysis := .ok (.dict []), enhancedAnalysis := fun _ => .ok (.dict []),
    progressCb := Option.none }

/-- Witness for C2 at the boundary: with `success_rate` exactly 50 the
master orchestrator must not be invoked. -/
theorem C2_witness :
    ((Ev.master ∈ (run boundaryCollab [] "s1" 0 0 "t1" []).2.1) ↔ (50 : Int) < 50) ∧
    (¬ (50 : Int) < 50 →
      ∀ f, Ev.phase3Done f ∈ (run boundaryCollab [] "s1" 0 0 "t1" []).2.1 →
        enhanceComponentResults boundaryCr (.dict []) "s1" = .ok f) :=
  C2_fallback_threshold boundaryCollab [] "s1" 0 0 "t1" [] boundaryCr
    (.dict [("success_rate", .int 50)]) 50 rfl (fun _ _ => rfl) rfl rfl rfl

/-! ## C6: enrichment failures are non-fatal and leave the merged results
unchanged -/

/-- C6 — If the enhanced orchestrator raises, the exception is caught
(given a non-raising `salvar_erro`): phase 4 returns `final_results`
unchanged, and the rest of the pipeline — consolidation onward — runs on
exactly that unchanged value. -/
theorem C6_enrichment_nonfatal (c : Collab) (data : PyDict) (sid : String)
    (final : PyVal) (merged : PyDict) (e : String)
    (hm : pyUnionD data final = .ok merged)
    (he : c.enhancedAnalysis (.dict merged) = .error e)
    (hse : c.salvarErro "enhanced_orchestrator_error" e = .ok ()) :
    phase4 c data final = ([Ev.enhanced, Ev.erro "enhanced_orchestrator_error"], .ok final) ∧
    (∀ execTime ts svc cr st1, (∀ i m, callCb c.progressCb i m = .ok ()) →
      runTail c data sid execTime ts svc cr final st1 =
        (match consolidateAllResults final svc sid ts with
         | .error e2 =>
             (st1, [Ev.enhanced, Ev.erro "enhanced_orchestrator_error"], .error e2)
         | .ok report =>
           match saveToAllCategories c report sid with
           | (evs7, .error e2) =>
               (st1, [Ev.enhanced, Ev.erro "enhanced_orchestrator_error"] ++ evs7,
                 .error e2)
           | (evs7, .ok _) =>
             match stMark st1 sid (fun r =>
                 { r with status := "completed", executionTime := some execTime }) with
             | .error e2 =>
                 (st1, [Ev.enhanced, Ev.erro "enhanced_orchestrator_error"] ++ evs7,
                   .error e2)
             | .ok st2 =>
               match (do
                   let es ← pyIndex cr "execution_stats"
                   let sr ← pyIndex es "success_rate"
                   let sc ← pyIndex cr "successful_components"
                   let n ← pyLen sc
                   pure (sr, n) : Except String (PyVal × Nat)) with
               | .error e2 =>
                   (st2, [Ev.enhanced, Ev.erro "enhanced_orchestrator_error"] ++ evs7
                     ++ [Ev.status sid "completed" true], .error e2)
               | .ok (sr, n) =>
                   (st2, [Ev.enhanced, Ev.erro "enhanced_orchestrator_error"] ++ evs7
                     ++ [Ev.status sid "completed" true],
                     .ok (mkEnvelope sid execTime svc sr n report)))) := by
  have hp4 : phase4 c data final
      = ([Ev.enhanced, Ev.erro "enhanced_orchestrator_error"], .ok final) := by
    unfold phase4 phase4Body
    simp only [hm, he, hse]
    rfl
  refine ⟨hp4, ?_⟩
  intro execTime ts svc cr st1 hCb
  unfold runTail
  simp only [hCb, hp4]

/-- Collaborators for the C6 witness: the enhancement stage always
raises, persistence succeeds. -/
def enrichFailCollab : Collab :=
  { salvarEtapa := fun _ _ => .ok (), salvarErro := fun _ _ => .ok (),
    aiStatus := .ok (.dict []), executeComponents := .ok boundaryCr,
    masterAnalysis := .ok (.dict []), enhancedAnalysis := fun _ => .error "boom",
    progressCb := Option.none }

/-- Witness for C6 at a concrete failing enhancement run. -/
theorem C6_witness :
    phase4 enrichFailCollab [] (.dict [("components", .dict [])])
      = ([Ev.enhanced, Ev.erro "enhanced_orchestrator_error"],
        .ok (.dict [("components", .dict [])])) ∧
    (∀ execTime ts svc cr st1,
      (∀ i m, callCb enrichFailCollab.progressCb i m = .ok ()) →
      runTail enrichFailCollab [] "s1" execTime ts svc cr
          (.dict [("components", .dict [])]) st1 =
        (match consolidateAllResults (.dict [("components", .dict [])]) svc "s1" ts with
         | .error e2 =>
             (st1, [Ev.enhanced, Ev.erro "enhanced_orchestrator_error"], .error e2)
         | .ok report =>
           match saveToAllCategories enrichFailCollab report "s1" with
           | (evs7, .error e2) =>
               (st1, [Ev.enhanced, Ev.erro "enhanced_orchestrator_error"] ++ evs7,
                 .error e2)
           | (evs7, .ok _) =>
             match stMark st1 "s1" (fun r =>
                 { r with status := "completed", executionTime := some execTime }) with
             | .error e2 =>
                 (st1, [Ev.enhanced, Ev.erro "enhanced_orchestrator_error"] ++ evs7,
                   .error e2)
             | .ok st2 =>
               match (do
                   let es ← pyIndex cr "execution_stats"
                   let sr ← pyIndex es "success_rate"
                   let sc ← pyIndex cr "successful_components"
                   let n ← pyLen sc
                   pure (sr, n) : Except String (PyVal × Nat)) with
               | .error e2 =>
                   (st2, [Ev.enhanced, Ev.erro "enhanced_orchestrator_error"] ++ evs7
                     ++ [Ev.status "s1" "completed" true], .error e2)
               | .ok (sr, n) =>
                   (st2, [Ev.enhanced, Ev.erro "enhanced_orchestrator_error"] ++ evs7
                     ++ [Ev.status "s1" "completed" true],
                     .ok (mkEnvelope "s1" execTime svc sr n report)))) :=
  C6_enrichment_nonfatal enrichFailCollab [] "s1"
    (.dict [("components", .dict [])]) [("components", .dict [])] "boom"
    rfl rfl rfl

end V800

namespace V800

/-! ## Session-state lemmas and envelope inversion -/

theorem stGet_stSet_self (st : St) (sid : String) (r : SessRec) :
    stGet (stSet st sid r) sid = some r := by
  induction st with
  | nil => simp [stSet, stGet]
  | cons hd tl ih =>
      obtain ⟨k, w⟩ := hd
      by_cases h : k = sid
      · simp [stSet, stGet, h]
      · simp [stSet, stGet, h, ih]

theorem stMark_of_get (st : St) (sid : String) (f : SessRec → SessRec) (w : SessRec)
    (h : stGet st sid = some w) :
    ∃ st', stMark st sid f = .ok st' ∧ stGet st' sid = some (f w) := by
  induction st with
  | nil => simp [stGet] at h
  | cons hd tl ih =>
      obtain ⟨k, v⟩ := hd
      by_cases hk : k = sid
      · subst hk
        simp only [stGet, if_true, eq_self_iff_true, Option.some.injEq] at h
        subst h
        exact ⟨(k, f v) :: tl, by simp [stMark], by simp [stGet]⟩
      · simp only [stGet, hk, if_false] at h
        obtain ⟨st', hmk, hget⟩ := ih h
        refine ⟨(k, v) :: st', ?_, ?_⟩
        · simp [stMark, hk, hmk, Except.map]
        · simp [stGet, hk, hget]

theorem runTail_ok_shape (c : Collab) (data : PyDict) (sid : String) (execTime : Nat)
    (ts : String) (svc cr final1 : PyVal) (st1 : St) (env : PyVal)
    (h : (runTail c data sid execTime ts svc cr final1 st1).2.2 = .ok env) :
    ∃ sr n report, env = mkEnvelope sid execTime svc sr n report := by
  unfold runTail at h
  rcases hcb8 : callCb c.progressCb 8 "🧠 Aplicando análise psicológica avançada..."
    with e | u <;> simp only [hcb8] at h
  · cases h
  · rcases hp4 : phase4 c data final1 with ⟨evs5, r5⟩
    simp only [hp4] at h
    cases r5 with
    | error e => cases h
    | ok final2 =>
        dsimp only at h
        rcases hcb12 : callCb c.progressCb 12 "📊 Consolidando resultados finais..."
          with e | u <;> simp only [hcb12] at h
        · cases h
        · rcases hcons : consolidateAllResults final2 svc sid ts with e | report <;>
            simp only [hcons] at h
          · cases h
          · rcases hcb13 : callCb c.progressCb 13 "💾 Salvando em todas as categorias..."
              with e | u <;> simp only [hcb13] at h
            · cases h
            · rcases hsv : saveToAllCategories c report sid with ⟨evs7, r7⟩
              simp only [hsv] at h
              cases r7 with
              | error e => cases h
              | ok u2 =>
                  dsimp only at h
                  rcases hmk : stMark st1 sid (fun r =>
                      { r with status := "completed", executionTime := some execTime })
                    with e | st2 <;> simp only [hmk] at h
                  · cases h
                  · rcases hidx : (do
                        let es ← pyIndex cr "execution_stats"
                        let sr ← pyIndex es "success_rate"
                        let sc ← pyIndex cr "successful_components"
                        let n ← pyLen sc
                        pure (sr, n) : Except String (PyVal × Nat)) with e | p <;>
                      simp only [hidx] at h
                    · cases h
                    · obtain ⟨sr, n⟩ := p
                      dsimp only at h
                      cases h
                      exact ⟨sr, n, report, rfl⟩

theorem runBody_ok_shape (c : Collab) (data : PyDict) (sid : String) (t0 t1 : Nat)
    (ts : String) (st0 : St) (env : PyVal)
    (h : (runBody c data sid t0 t1 ts st0).2.2 = .ok env) :
    ∃ sr n report, env = mkEnvelope sid t1 (checkAllServicesStatus c.aiStatus) sr n report := by
  unfold runBody at h
  rcases h1 : c.salvarEtapa "super_orchestrator_iniciado" (initPayload data sid)
    with e | u <;> simp only [h1] at h
  · cases h
  · rcases h2 : callCb c.progressCb 1 "🔧 Verificando status de todos os serviços..."
      with e | u <;> simp only [h2] at h
    · cases h
    · rcases h3 : callCb c.progressCb 2 "🧩 Executando componentes com validação..."
        with e | u <;> simp only [h3] at h
      · cases h
      · rcases h4 : c.executeComponents with e | cr <;> simp only [h4] at h
        · cases h
        · rcases h5 : (do
              let es ← pyIndex cr "execution_stats"
              let sr ← pyIndex es "success_rate"
              pyLtInt sr 50 : Except String Bool) with e | lowRate <;> simp only [h5] at h
          · cases h
          · rcases h6 : phase3 c cr data sid lowRate with ⟨evs3, r3⟩
            simp only [h6] at h
            cases r3 with
            | error e => cases h
            | ok final1 =>
                dsimp only at h
                rcases h7 : runTail c data sid t1 ts (checkAllServicesStatus c.aiStatus)
                  cr final1 (stSet st0 sid (initialSessRec t0)) with ⟨st2, evs5, r5⟩
                simp only [h7] at h
                try dsimp only at h
                have := runTail_ok_shape c data sid t1 ts
                  (checkAllServicesStatus c.aiStatus) cr final1
                  (stSet st0 sid (initialSessRec t0)) env (by rw [h7]; exact h)
                exact this

/-- Every branch of the `try` body leaves the session id present in
`execution_state`. -/
theorem runBody_st_get (c : Collab) (data : PyDict) (sid : String) (t0 t1 : Nat)
    (ts : String) (st0 : St) :
    ∃ w, stGet (runBody c data sid t0 t1 ts st0).1 sid = some w := by
  have hst1 : stGet (stSet st0 sid (initialSessRec t0)) sid = some (initialSessRec t0) :=
    stGet_stSet_self st0 sid (initialSessRec t0)
  have htail : ∀ svc cr final1,
      ∃ w, stGet (runTail c data sid t1 ts svc cr final1
        (stSet st0 sid (initialSessRec t0))).1 sid = some w := by
    intro svc cr final1
    unfold runTail
    rcases hcb8 : callCb c.progressCb 8 "🧠 Aplicando análise psicológica avançada..."
      with e | u <;> simp only [hcb8]
    · exact ⟨_, hst1⟩
    · rcases hp4 : phase4 c data final1 with ⟨evs5, r5⟩
      cases r5 with
      | error e => exact ⟨_, hst1⟩
      | ok final2 =>
          dsimp only
          rcases hcb12 : callCb c.progressCb 12 "📊 Consolidando resultados finais..."
            with e | u <;> simp only [hcb12]
          · exact ⟨_, hst1⟩
          · rcases hcons : consolidateAllResults final2 svc sid ts with e | report <;>
              simp only [hcons]
            · exact ⟨_, hst1⟩
            · rcases hcb13 : callCb c.progressCb 13
                "💾 Salvando em todas as categorias..." with e | u <;> simp only [hcb13]
              · exact ⟨_, hst1⟩
              · rcases hsv : saveToAllCategories c report sid with ⟨evs7, r7⟩
                cases r7 with
                | error e => exact ⟨_, hst1⟩
                | ok u2 =>
                    dsimp only
                    obtain ⟨st2, hmk, hget⟩ := stMark_of_get _ sid (fun r =>
                      { r with status := "completed", executionTime := some t1 })
                      (initialSessRec t0) hst1
                    rw [hmk]
                    rcases hidx : (do
                        let es ← pyIndex cr "execution_stats"
                        let sr ← pyIndex es "success_rate"
                        let sc ← pyIndex cr "successful_components"
                        let n ← pyLen sc
                        pure (sr, n) : Except String (PyVal × Nat)) with e | p
                    · exact ⟨_, hget⟩
                    · obtain ⟨sr, n⟩ := p
                      exact ⟨_, hget⟩
  unfold runBody
  rcases h1 : c.salvarEtapa "super_orchestrator_iniciado" (initPayload data sid)
    with e | u <;> simp only [h1]
  · exact ⟨_, hst1⟩
  · rcases h2 : callCb c.progressCb 1 "🔧 Verificando status de todos os serviços..."
      with e | u <;> simp only [h2]
    · exact ⟨_, hst1⟩
    · rcases h3 : callCb c.progressCb 2 "🧩 Executando componentes com validação..."
        with e | u <;> simp only [h3]
      · exact ⟨_, hst1⟩
      · rcases h4 : c.executeComponents with e | cr <;> simp only [h4]
        · exact ⟨_, hst1⟩
        · rcases h5 : (do
              let es ← pyIndex cr "execution_stats"
              let sr ← pyIndex es "success_rate"
              pyLtInt sr 50 : Except String Bool) with e | lowRate <;> simp only [h5]
          · exact ⟨_, hst1⟩
          · rcases h6 : phase3 c cr data sid lowRate with ⟨evs3, r3⟩
            cases r3 with
            | error e => exact ⟨_, hst1⟩
            | ok final1 =>
                dsimp only
                rcases h7 : runTail c data sid t1 ts (checkAllServicesStatus c.aiStatus)
                  cr final1 (stSet st0 sid (initialSessRec t0)) with ⟨st2, evs5, r5⟩
                have := htail (checkAllServicesStatus c.aiStatus) cr final1
                rw [h7] at this
                exact this

end V800

/-! ## C1: critical failures yield the emergency-fallback envelope -/

namespace V800

/-- Collaborators whose persistence sink raises on every call. -/
def persistFailCollab : Collab :=
  { salvarEtapa := fun _ _ => .error "disk full",
    salvarErro := fun _ _ => .error "disk full",
    aiStatus := .ok (.dict []), executeComponents := .ok (.dict []),
    masterAnalysis := .ok (.dict []), enhancedAnalysis := fun _ => .ok (.dict []),
    progressCb := Option.none }

/-- Collaborators whose component executor raises (persistence succeeds). -/
def componentsFailCollab : Collab :=
  { salvarEtapa := fun _ _ => .ok (), salvarErro := fun _ _ => .ok (),
    aiStatus := .ok (.dict []), executeComponents := .error "boom",
    masterAnalysis := .ok (.dict []), enhancedAnalysis := fun _ => .ok (.dict []),
    progressCb := Option.none }

/-- C1 — counterexample to the claim as stated: (a) "never raises" fails
when the persistence sink raises on every call, because the critical
handler's own `salvar_erro` call raises and that exception propagates to
the caller; (b) on the fallback path the placeholder components sit under
the key `fallback_report`, not `report`: the returned envelope has no
`report` key at all, so they are not accessible as `report.components`. -/
theorem C1_counterexample :
    (run persistFailCollab [] "s1" 0 0 "t1" []).2.2 = .error "disk full" ∧
    (run componentsFailCollab [] "s1" 0 0 "t1" []).2.2
        = .ok (.dict (emergencyFallbackKvs [] "s1")) ∧
    pyHasKey (emergencyFallbackKvs [] "s1") "report" = false := by
  refine ⟨rfl, rfl, by decide⟩

/-- C1 (amended) — provided the error-logging collaborator itself never
raises, `execute_synchronized_analysis` never raises: it returns either a
success envelope (`success: true`, `sync_status: PERFECT_SYNC`) or the
emergency fallback (`success: false`, `sync_status: EMERGENCY_FALLBACK`)
whose `fallback_report.components` mapping contains a placeholder entry
for every one of the eight expected component names, with the session
marked `failed`. -/
theorem C1_no_raise (c : Collab) (data : PyDict) (sid : String) (t0 t1 : Nat)
    (ts : String) (st0 : St)
    (herr : ∀ n e, c.salvarErro n e = .ok ()) :
    ∃ env, (run c data sid t0 t1 ts st0).2.2 = .ok env ∧
      ((pyIndex env "success" = .ok (.bool true) ∧
        pyIndex env "sync_status" = .ok (.str "PERFECT_SYNC")) ∨
       (env = emergencyFallback data sid ∧
        pyIndex env "success" = .ok (.bool false) ∧
        pyIndex env "sync_status" = .ok (.str "EMERGENCY_FALLBACK") ∧
        (∃ fr cs, pyIndex env "fallback_report" = .ok (.dict fr) ∧
          pyLookup fr "components" = some (.dict cs) ∧
          ∀ name ∈ expectedComponents, pyHasKey cs name = true) ∧
        (∃ w, stGet (run c data sid t0 t1 ts st0).1 sid = some w ∧
          w.status = "failed"))) := by
  rcases hb : runBody c data sid t0 t1 ts st0 with ⟨st, evs, r⟩
  cases r with
  | ok env =>
      have hrun : run c data sid t0 t1 ts st0 = (st, evs, .ok env) := by
        unfold run; rw [hb]
      obtain ⟨sr, n, report, henv⟩ :=
        runBody_ok_shape c data sid t0 t1 ts st0 env (by rw [hb])
      refine ⟨env, by rw [hrun], Or.inl ⟨?_, ?_⟩⟩
      · rw [henv]; rfl
      · rw [henv]; rfl
  | error e =>
      have hget : ∃ w, stGet st sid = some w := by
        have h2 := runBody_st_get c data sid t0 t1 ts st0
        rw [hb] at h2; exact h2
      obtain ⟨w, hw⟩ := hget
      obtain ⟨st2, hmk, hget2⟩ := stMark_of_get st sid
        (fun r => { r with status := "failed", errorMsg := some e }) w hw
      have hrun : run c data sid t0 t1 ts st0
          = (st2, (evs ++ [Ev.erro "super_orchestrator_critico"])
              ++ [Ev.status sid "failed" true],
             .ok (emergencyFallback data sid)) := by
        unfold run
        simp only [hb, herr, hmk]
      refine ⟨emergencyFallback data sid, by rw [hrun], Or.inr ⟨rfl, ?_, ?_, ?_, ?_⟩⟩
      · rfl
      · rfl
      · exact ⟨[("segmento", (pyLookup data "segmento").getD (.str "Não especificado")),
          ("produto", (pyLookup data "produto").getD (.str "Não especificado")),
          ("status", .str "Análise básica de emergência"),
          ("components", .dict emergencyComponents)], emergencyComponents,
          rfl, rfl, by decide⟩
      · exact ⟨{ w with status := "failed", errorMsg := some e },
          by rw [hrun]; exact hget2, rfl⟩

/-- Witness for the amended C1 at a concrete failing run: the component
executor raises, `salvar_erro` succeeds, and the run returns the
emergency-fallback envelope. -/
theorem C1_witness :
    ∃ env, (run componentsFailCollab [] "s1" 0 0 "t1" []).2.2 = .ok env ∧
      ((pyIndex env "success" = .ok (.bool true) ∧
        pyIndex env "sync_status" = .ok (.str "PERFECT_SYNC")) ∨
       (env = emergencyFallback [] "s1" ∧
        pyIndex env "success" = .ok (.bool false) ∧
        pyIndex env "sync_status" = .ok (.str "EMERGENCY_FALLBACK") ∧
        (∃ fr cs, pyIndex env "fallback_report" = .ok (.dict fr) ∧
          pyLookup fr "components" = some (.dict cs) ∧
          ∀ name ∈ expectedComponents, pyHasKey cs name = true) ∧
        (∃ w, stGet (run componentsFailCollab [] "s1" 0 0 "t1" []).1 "s1" = some w ∧
          w.status = "failed"))) :=
  C1_no_raise componentsFailCollab [] "s1" 0 0 "t1" [] (fun _ _ => rfl)

end V800

/-! ## C4: persistence failures -/

namespace V800

/-- The same collaborators with a never-failing `salvar_etapa`. -/
def etapaOkOf (c : Collab) : Collab :=
  { c with salvarEtapa := fun _ _ => .ok () }

/-- Collaborators where only the step-persistence sink raises (the
error-logging sink and every pipeline stage succeed). -/
def etapaFailCollab : Collab :=
  { salvarEtapa := fun _ _ => .error "disk full",
    salvarErro := fun _ _ => .ok (),
    aiStatus := .ok (.dict []), executeComponents := .ok (.dict []),
    masterAnalysis := .ok (.dict []), enhancedAnalysis := fun _ => .ok (.dict []),
    progressCb := Option.none }

/-- Collaborators where every persistence call and every pipeline stage
succeed. -/
def persistOkCollab : Collab :=
  { salvarEtapa := fun _ _ => .ok (), salvarErro := fun _ _ => .ok (),
    aiStatus := .ok (.dict []), executeComponents := .ok (.dict []),
    masterAnalysis := .ok (.dict []), enhancedAnalysis := fun _ => .ok (.dict []),
    progressCb := Option.none }

/-- Failures of `_save_to_all_categories`'s body are caught; the result
is `ok` whenever the error-logging collaborator does not raise. -/
theorem saveToAll_ok (c : Collab) (report : PyVal) (sid : String)
    (herr : ∀ n e, c.salvarErro n e = .ok ()) :
    (saveToAllCategories c report sid).2 = .ok () := by
  unfold saveToAllCategories
  rcases hsb : saveBody c report with ⟨evs, r⟩
  cases r with
  | ok u => rfl
  | error e => simp only [herr]

/-- `runTail` congruence: two collaborator bundles with the same progress
callback and phase-4 behaviour, both of whose save steps succeed, give
the same final state and the same result. -/
theorem runTail_congr (c1 c2 : Collab) (data : PyDict) (sid : String) (t1 : Nat)
    (ts : String) (svc cr final1 : PyVal) (st1 : St)
    (hcb : c2.progressCb = c1.progressCb)
    (hp4 : phase4 c2 data final1 = phase4 c1 data final1)
    (hs1 : ∀ report s2, (saveToAllCategories c1 report s2).2 = .ok ())
    (hs2 : ∀ report s2, (saveToAllCategories c2 report s2).2 = .ok ()) :
    (runTail c2 data sid t1 ts svc cr final1 st1).1
        = (runTail c1 data sid t1 ts svc cr final1 st1).1 ∧
    (runTail c2 data sid t1 ts svc cr final1 st1).2.2
        = (runTail c1 data sid t1 ts svc cr final1 st1).2.2 := by
  unfold runTail
  rw [hcb, hp4]
  rcases h8 : callCb c1.progressCb 8 "🧠 Aplicando análise psicológica avançada..."
    with e | u
  · exact ⟨rfl, rfl⟩
  · try dsimp only
    rcases hp : phase4 c1 data final1 with ⟨evs5, r5⟩
    cases r5 with
    | error e => exact ⟨rfl, rfl⟩
    | ok final2 =>
        try dsimp only
        rcases h12 : callCb c1.progressCb 12 "📊 Consolidando resultados finais..."
          with e | u2
        · exact ⟨rfl, rfl⟩
        · try dsimp only
          rcases hcons : consolidateAllResults final2 svc sid ts with e | report
          · exact ⟨rfl, rfl⟩
          · try dsimp only
            rcases h13 : callCb c1.progressCb 13 "💾 Salvando em todas as categorias..."
              with e | u3
            · exact ⟨rfl, rfl⟩
            · try dsimp only
              rcases hsv1 : saveToAllCategories c1 report sid with ⟨evs7a, r7a⟩
              rcases hsv2 : saveToAllCategories c2 report sid with ⟨evs7b, r7b⟩
              have hr7a : r7a = Except.ok () := by
                have h := hs1 report sid; rw [hsv1] at h; exact h
              have hr7b : r7b = Except.ok () := by
                have h := hs2 report sid; rw [hsv2] at h; exact h
              subst hr7a
              subst hr7b
              try dsimp only
              rcases hmk : stMark st1 sid (fun r =>
                  { r with status := "completed", executionTime := some t1 })
                with e | st2
              · exact ⟨rfl, rfl⟩
              · try dsimp only
                rcases hidx : (do
                    let es ← pyIndex cr "execution_stats"
                    let sr ← pyIndex es "success_rate"
                    let sc ← pyIndex cr "successful_components"
                    let n ← pyLen sc
                    pure (sr, n) : Except String (PyVal × Nat)) with e | p
                · exact ⟨rfl, rfl⟩
                · obtain ⟨sr, n⟩ := p
                  exact ⟨rfl, rfl⟩

/-- `runBody` is insensitive to `salvar_etapa` failures beyond the
initial call, given a non-raising `salvar_erro`. -/
theorem runBody_etapa_inv (c : Collab) (data : PyDict) (sid : String) (t0 t1 : Nat)
    (ts : String) (st0 : St)
    (herr : ∀ n e, c.salvarErro n e = .ok ())
    (hE : c.salvarEtapa "super_orchestrator_iniciado" (initPayload data sid) = .ok ()) :
    (runBody (etapaOkOf c) data sid t0 t1 ts st0).1
        = (runBody c data sid t0 t1 ts st0).1 ∧
    (runBody (etapaOkOf c) data sid t0 t1 ts st0).2.2
        = (runBody c data sid t0 t1 ts st0).2.2 := by
  have hcb : (etapaOkOf c).progressCb = c.progressCb := rfl
  have hai : (etapaOkOf c).aiStatus = c.aiStatus := rfl
  have hec : (etapaOkOf c).executeComponents = c.executeComponents := rfl
  have hE2 : (etapaOkOf c).salvarEtapa "super_orchestrator_iniciado"
      (initPayload data sid) = .ok () := rfl
  unfold runBody
  simp only [hcb, hai, hec, hE, hE2]
  rcases h2 : callCb c.progressCb 1 "🔧 Verificando status de todos os serviços..."
    with e | u
  · exact ⟨rfl, rfl⟩
  · try dsimp only
    rcases h3 : callCb c.progressCb 2 "🧩 Executando componentes com validação..."
      with e | u2
    · exact ⟨rfl, rfl⟩
    · try dsimp only
      rcases h4 : c.executeComponents with e | cr
      · exact ⟨rfl, rfl⟩
      · try dsimp only
        rcases h5 : (do
            let es ← pyIndex cr "execution_stats"
            let sr ← pyIndex es "success_rate"
            pyLtInt sr 50 : Except String Bool) with e | lowRate
        · exact ⟨rfl, rfl⟩
        · try dsimp only
          have hph3 : phase3 (etapaOkOf c) cr data sid lowRate
              = phase3 c cr data sid lowRate := rfl
          rw [hph3]
          rcases h6 : phase3 c cr data sid lowRate with ⟨evs3, r3⟩
          cases r3 with
          | error e => exact ⟨rfl, rfl⟩
          | ok final1 =>
              try dsimp only
              have htail := runTail_congr c (etapaOkOf c) data sid t1 ts
                (checkAllServicesStatus c.aiStatus) cr final1
                (stSet st0 sid (initialSessRec t0)) rfl rfl
                (fun report s2 => saveToAll_ok c report s2 herr)
                (fun report s2 => saveToAll_ok (etapaOkOf c) report s2 herr)
              rcases h7 : runTail c data sid t1 ts (checkAllServicesStatus c.aiStatus)
                cr final1 (stSet st0 sid (initialSessRec t0)) with ⟨st2, evs5, r5⟩
              rcases h7b : runTail (etapaOkOf c) data sid t1 ts
                (checkAllServicesStatus c.aiStatus) cr final1
                (stSet st0 sid (initialSessRec t0)) with ⟨st2b, evs5b, r5b⟩
              rw [h7, h7b] at htail
              exact ⟨htail.1, htail.2⟩

/-- C4 — counterexample to the claim as stated: (a) if the persistence
sink raises on every call the exception propagates to the caller (the
initial `salvar_etapa` is only guarded by the critical `except`, whose
own `salvar_erro` call then raises); (b) if only `salvar_etapa` raises
(with a working `salvar_erro`) and every pipeline stage succeeds, the run
returns the emergency-fallback envelope with `success: false` — the
`success` field reflects the persistence outcome, not the pipeline
outcomes. -/
theorem C4_counterexample :
    (run persistFailCollab [] "s1" 0 0 "t1" []).2.2 = .error "disk full" ∧
    (run etapaFailCollab [] "s1" 0 0 "t1" []).2.2
        = .ok (.dict (emergencyFallbackKvs [] "s1")) ∧
    pyLookup (emergencyFallbackKvs [] "s1") "success" = some (.bool false) :=
  ⟨rfl, rfl, rfl⟩

/-- C4 (amended) — persistence failures are non-fatal only away from the
initial step: (a) any failure inside `_save_to_all_categories` is caught
(result `ok` whenever `salvar_erro` does not raise); (b) given a
non-raising `salvar_erro` and a successful initial
`salvar_etapa("super_orchestrator_iniciado", ...)`, the final session
state and returned result of `execute_synchronized_analysis` are exactly
those obtained with a never-failing `salvar_etapa`: later `salvar_etapa`
failures influence neither. -/
theorem C4_persistence (c : Collab) (data : PyDict) (sid : String) (t0 t1 : Nat)
    (ts : String) (st0 : St)
    (herr : ∀ n e, c.salvarErro n e = .ok ())
    (hE : c.salvarEtapa "super_orchestrator_iniciado" (initPayload data sid) = .ok ()) :
    (∀ report s2, (saveToAllCategories c report s2).2 = .ok ()) ∧
    (run (etapaOkOf c) data sid t0 t1 ts st0).1 = (run c data sid t0 t1 ts st0).1 ∧
    (run (etapaOkOf c) data sid t0 t1 ts st0).2.2
        = (run c data sid t0 t1 ts st0).2.2 := by
  refine ⟨fun report s2 => saveToAll_ok c report s2 herr, ?_⟩
  have hrb := runBody_etapa_inv c data sid t0 t1 ts st0 herr hE
  have hererr : ∀ n e2, (etapaOkOf c).salvarErro n e2 = .ok () := fun n e2 => herr n e2
  unfold run
  rcases hb1 : runBody c data sid t0 t1 ts st0 with ⟨st, evs, r⟩
  rcases hb2 : runBody (etapaOkOf c) data sid t0 t1 ts st0 with ⟨st2, evs2, r2⟩
  rw [hb1, hb2] at hrb
  obtain ⟨hst, hr⟩ := hrb
  dsimp only at hst hr
  subst hst
  subst hr
  cases r2 with
  | ok env => exact ⟨rfl, rfl⟩
  | error e =>
      try dsimp only
      simp only [herr, hererr]
      rcases hmk : stMark st2 sid (fun w =>
          { w with status := "failed", errorMsg := some e }) with e2 | st3
      · exact ⟨rfl, rfl⟩
      · exact ⟨rfl, rfl⟩

/-- Witness for the amended C4 at concrete collaborators whose
persistence calls all succeed. -/
theorem C4_witness :
    (∀ report s2, (saveToAllCategories persistOkCollab report s2).2 = .ok ()) ∧
    (run (etapaOkOf persistOkCollab) [] "s1" 0 0 "t1" []).1
        = (run persistOkCollab [] "s1" 0 0 "t1" []).1 ∧
    (run (etapaOkOf persistOkCollab) [] "s1" 0 0 "t1" []).2.2
        = (run persistOkCollab [] "s1" 0 0 "t1" []).2.2 :=
  C4_persistence persistOkCollab [] "s1" 0 0 "t1" [] (fun _ _ => rfl) rfl

end V800

/-! ## C7: session-status transitions -/

namespace V800

/-- Strict-executor output whose stats are fine but which lacks the
`successful_components` key read while building the success envelope. -/
def noSuccCompCr : PyVal :=
  .dict [("execution_stats", .dict [("success_rate", .int 50)])]

/-- Collaborators that succeed everywhere but whose component results
lack `successful_components`. -/
def noSuccCompCollab : Collab :=
  { salvarEtapa := fun _ _ => .ok (), salvarErro := fun _ _ => .ok (),
    aiStatus := .ok (.dict []), executeComponents := .ok noSuccCompCr,
    masterAnalysis := .ok (.dict []), enhancedAnalysis := fun _ => .ok (.dict []),
    progressCb := Option.none }

theorem statusList_append (sid : String) (l1 l2 : List Ev) :
    statusList sid (l1 ++ l2) = statusList sid l1 ++ statusList sid l2 := by
  induction l1 with
  | nil => rfl
  | cons hd tl ih =>
      cases hd with
      | status s t lk => by_cases h : s = sid <;> simp [statusList, h, ih]
      | etapa n => simp [statusList, ih]
      | erro n => simp [statusList, ih]
      | master => simp [statusList, ih]
      | enhanced => simp [statusList, ih]
      | phase3Done f => simp [statusList, ih]

theorem statusLocked_append (l1 l2 : List Ev) :
    statusLocked (l1 ++ l2) = (statusLocked l1 && statusLocked l2) := by
  induction l1 with
  | nil => simp [statusLocked]
  | cons hd tl ih =>
      cases hd with
      | status s t lk => simp [statusLocked, ih, Bool.and_assoc]
      | etapa n => simp [statusLocked, ih]
      | erro n => simp [statusLocked, ih]
      | master => simp [statusLocked, ih]
      | enhanced => simp [statusLocked, ih]
      | phase3Done f => simp [statusLocked, ih]

theorem statusList_eq_nil (sid : String) (l : List Ev)
    (h : ∀ ev ∈ l, ∀ s t lk, ev ≠ Ev.status s t lk) :
    statusList sid l = [] := by
  induction l with
  | nil => rfl
  | cons hd tl ih =>
      cases hd with
      | status s t lk => exact absurd rfl (h _ (List.mem_cons_self _ _) s t lk)
      | etapa n => exact ih (fun ev hev s t lk => h ev (List.mem_cons_of_mem _ hev) s t lk)
      | erro n => exact ih (fun ev hev s t lk => h ev (List.mem_cons_of_mem _ hev) s t lk)
      | master => exact ih (fun ev hev s t lk => h ev (List.mem_cons_of_mem _ hev) s t lk)
      | enhanced => exact ih (fun ev hev s t lk => h ev (List.mem_cons_of_mem _ hev) s t lk)
      | phase3Done f =>
          exact ih (fun ev hev s t lk => h ev (List.mem_cons_of_mem _ hev) s t lk)

theorem statusLocked_eq_true (l : List Ev)
    (h : ∀ ev ∈ l, ∀ s t lk, ev ≠ Ev.status s t lk) :
    statusLocked l = true := by
  induction l with
  | nil => rfl
  | cons hd tl ih =>
      cases hd with
      | status s t lk => exact absurd rfl (h _ (List.mem_cons_self _ _) s t lk)
      | etapa n => exact ih (fun ev hev s t lk => h ev (List.mem_cons_of_mem _ hev) s t lk)
      | erro n => exact ih (fun ev hev s t lk => h ev (List.mem_cons_of_mem _ hev) s t lk)
      | master => exact ih (fun ev hev s t lk => h ev (List.mem_cons_of_mem _ hev) s t lk)
      | enhanced => exact ih (fun ev hev s t lk => h ev (List.mem_cons_of_mem _ hev) s t lk)
      | phase3Done f =>
          exact ih (fun ev hev s t lk => h ev (List.mem_cons_of_mem _ hev) s t lk)

/-- FASE 3 emits no events beyond a possible master invocation. -/
theorem phase3_trace_shape (c : Collab) (cr : PyVal) (data : PyDict) (sid : String)
    (lowRate : Bool) :
    (phase3 c cr data sid lowRate).1 = [] ∨
    (phase3 c cr data sid lowRate).1 = [Ev.master] := by
  unfold phase3
  cases lowRate with
  | false =>
      rw [if_neg Bool.false_ne_true]
      rcases he : enhanceComponentResults cr (.dict data) sid with e | f
      · exact Or.inl rfl
      · exact Or.inl rfl
  | true =>
      rw [if_pos rfl]
      rcases hcb : callCb c.progressCb 5 "🔄 Executando análise com Master Orchestrator..."
        with e | u
      · exact Or.inl rfl
      · try dsimp only
        rcases hm : c.masterAnalysis with e | mr
        · exact Or.inr rfl
        · try dsimp only
          rcases hc : combineOrchestratorResults cr mr (.dict data) sid with e | f
          · exact Or.inr rfl
          · exact Or.inr rfl

/-- The status writes of FASE 4 through envelope construction: none, or a
single locked `completed`. -/
theorem runTail_statusList (c : Collab) (data : PyDict) (sid : String) (execTime : Nat)
    (ts : String) (svc cr final1 : PyVal) (st1 : St) :
    (statusList sid (runTail c data sid execTime ts svc cr final1 st1).2.1 = [] ∨
     statusList sid (runTail c data sid execTime ts svc cr final1 st1).2.1
       = ["completed"]) ∧
    statusLocked (runTail c data sid execTime ts svc cr final1 st1).2.1 = true := by
  unfold runTail
  rcases hcb8 : callCb c.progressCb 8 "🧠 Aplicando análise psicológica avançada..."
    with e | u
  · exact ⟨Or.inl rfl, rfl⟩
  · try dsimp only
    have hP4 := phase4_evs c data final1
    rcases hp4 : phase4 c data final1 with ⟨evs5, r5⟩
    rw [hp4] at hP4
    have h5ns : ∀ ev ∈ evs5, ∀ s t lk, ev ≠ Ev.status s t lk := by
      intro ev hev s t lk heq
      rcases hP4 ev hev with h | ⟨n, h⟩ <;> rw [h] at heq <;> cases heq
    have h5nil : statusList sid evs5 = [] := statusList_eq_nil sid evs5 h5ns
    have h5lk : statusLocked evs5 = true := statusLocked_eq_true evs5 h5ns
    cases r5 with
    | error e => exact ⟨Or.inl h5nil, h5lk⟩
    | ok final2 =>
        try dsimp only
        rcases hcb12 : callCb c.progressCb 12 "📊 Consolidando resultados finais..."
          with e | u2
        · exact ⟨Or.inl h5nil, h5lk⟩
        · try dsimp only
          rcases hcons : consolidateAllResults final2 svc sid ts with e | report
          · exact ⟨Or.inl h5nil, h5lk⟩
          · try dsimp only
            rcases hcb13 : callCb c.progressCb 13 "💾 Salvando em todas as categorias..."
              with e | u3
            · exact ⟨Or.inl h5nil, h5lk⟩
            · try dsimp only
              have hSv := saveToAll_evs c report sid
              rcases hsv : saveToAllCategories c report sid with ⟨evs7, r7⟩
              rw [hsv] at hSv
              have h7ns : ∀ ev ∈ evs7, ∀ s t lk, ev ≠ Ev.status s t lk := by
                intro ev hev s t lk heq
                rcases hSv ev hev with ⟨n, h⟩ | ⟨n, h⟩ <;> rw [h] at heq <;> cases heq
              have h7nil : statusList sid evs7 = [] := statusList_eq_nil sid evs7 h7ns
              have h7lk : statusLocked evs7 = true := statusLocked_eq_true evs7 h7ns
              cases r7 with
              | error e =>
                  refine ⟨Or.inl ?_, ?_⟩
                  · show statusList sid (evs5 ++ evs7) = []
                    rw [statusList_append, h5nil, h7nil]
                    rfl
                  · show statusLocked (evs5 ++ evs7) = true
                    rw [statusLocked_append, h5lk, h7lk]
                    rfl
              | ok u4 =>
                  try dsimp only
                  rcases hmk : stMark st1 sid (fun r =>
                      { r with status := "completed", executionTime := some execTime })
                    with e | st2
                  · refine ⟨Or.inl ?_, ?_⟩
                    · show statusList sid (evs5 ++ evs7) = []
                      rw [statusList_append, h5nil, h7nil]
                      rfl
                    · show statusLocked (evs5 ++ evs7) = true
                      rw [statusLocked_append, h5lk, h7lk]
                      rfl
                  · try dsimp only
                    have hclist : statusList sid [Ev.status sid "completed" true]
                        = ["completed"] := by simp [statusList]
                    rcases hidx : (do
                        let es ← pyIndex cr "execution_stats"
                        let sr ← pyIndex es "success_rate"
                        let sc ← pyIndex cr "successful_components"
                        let n ← pyLen sc
                        pure (sr, n) : Except String (PyVal × Nat)) with e | p
                    · refine ⟨Or.inr ?_, ?_⟩
                      · show statusList sid
                            (evs5 ++ evs7 ++ [Ev.status sid "completed" true])
                          = ["completed"]
                        rw [statusList_append, statusList_append, h5nil, h7nil, hclist]
                        rfl
                      · show statusLocked
                            (evs5 ++ evs7 ++ [Ev.status sid "completed" true]) = true
                        rw [statusLocked_append, statusLocked_append, h5lk, h7lk]
                        rfl
                    · obtain ⟨sr, n⟩ := p
                      refine ⟨Or.inr ?_, ?_⟩
                      · show statusList sid
                            (evs5 ++ evs7 ++ [Ev.status sid "completed" true])
                          = ["completed"]
                        rw [statusList_append, statusList_append, h5nil, h7nil, hclist]
                        rfl
                      · show statusLocked
                            (evs5 ++ evs7 ++ [Ev.status sid "completed" true]) = true
                        rw [statusLocked_append, statusLocked_append, h5lk, h7lk]
                        rfl

/-- The status writes of the `try` body: a locked `running`, possibly
followed by a locked `completed`. -/
theorem runBody_statusList (c : Collab) (data : PyDict) (sid : String) (t0 t1 : Nat)
    (ts : String) (st0 : St) :
    (statusList sid (runBody c data sid t0 t1 ts st0).2.1 = ["running"] ∨
     statusList sid (runBody c data sid t0 t1 ts st0).2.1 = ["running", "completed"]) ∧
    statusLocked (runBody c data sid t0 t1 ts st0).2.1 = true := by
  have hrun2 : statusList sid ([Ev.status sid "running" true]
      ++ [Ev.etapa "super_orchestrator_iniciado"]) = ["running"] := by
    simp [statusList]
  have hlk2 : statusLocked ([Ev.status sid "running" true]
      ++ [Ev.etapa "super_orchestrator_iniciado"]) = true := rfl
  unfold runBody
  rcases h1 : c.salvarEtapa "super_orchestrator_iniciado" (initPayload data sid)
    with e | u
  · exact ⟨Or.inl hrun2, hlk2⟩
  · try dsimp only
    rcases h2 : callCb c.progressCb 1 "🔧 Verificando status de todos os serviços..."
      with e | u2
    · exact ⟨Or.inl hrun2, hlk2⟩
    · try dsimp only
      rcases h3 : callCb c.progressCb 2 "🧩 Executando componentes com validação..."
        with e | u3
      · exact ⟨Or.inl hrun2, hlk2⟩
      · try dsimp only
        rcases h4 : c.executeComponents with e | cr
        · exact ⟨Or.inl hrun2, hlk2⟩
        · try dsimp only
          rcases h5 : (do
              let es ← pyIndex cr "execution_stats"
              let sr ← pyIndex es "success_rate"
              pyLtInt sr 50 : Except String Bool) with e | lowRate
          · exact ⟨Or.inl hrun2, hlk2⟩
          · try dsimp only
            have hP3 := phase3_trace_shape c cr data sid lowRate
            rcases h6 : phase3 c cr data sid lowRate with ⟨evs3, r3⟩
            rw [h6] at hP3
            dsimp only at hP3
            have h3nil : statusList sid evs3 = [] := by
              rcases hP3 with h | h <;> rw [h] <;> rfl
            have h3lk : statusLocked evs3 = true := by
              rcases hP3 with h | h <;> rw [h] <;> rfl
            cases r3 with
            | error e =>
                refine ⟨Or.inl ?_, ?_⟩
                · show statusList sid (([Ev.status sid "running" true]
                      ++ [Ev.etapa "super_orchestrator_iniciado"]) ++ evs3) = ["running"]
                  rw [statusList_append, hrun2, h3nil]
                  rfl
                · show statusLocked (([Ev.status sid "running" true]
                      ++ [Ev.etapa "super_orchestrator_iniciado"]) ++ evs3) = true
                  rw [statusLocked_append, hlk2, h3lk]
                  rfl
            | ok final1 =>
                try dsimp only
                have htl := runTail_statusList c data sid t1 ts
                  (checkAllServicesStatus c.aiStatus) cr final1
                  (stSet st0 sid (initialSessRec t0))
                rcases h7 : runTail c data sid t1 ts (checkAllServicesStatus c.aiStatus)
                  cr final1 (stSet st0 sid (initialSessRec t0)) with ⟨st2, evs5, r5⟩
                rw [h7] at htl
                dsimp only at htl
                obtain ⟨h5or, h5lk⟩ := htl
                have hpd : statusList sid [Ev.phase3Done final1] = [] := rfl
                have hpdlk : statusLocked [Ev.phase3Done final1] = true := rfl
                refine ⟨?_, ?_⟩
                · rcases h5or with h | h
                  · refine Or.inl ?_
                    show statusList sid ((([Ev.status sid "running" true]
                        ++ [Ev.etapa "super_orchestrator_iniciado"]) ++ evs3
                        ++ [Ev.phase3Done final1]) ++ evs5) = ["running"]
                    rw [statusList_append, statusList_append, statusList_append,
                      hrun2, h3nil, hpd, h]
                    rfl
                  · refine Or.inr ?_
                    show statusList sid ((([Ev.status sid "running" true]
                        ++ [Ev.etapa "super_orchestrator_iniciado"]) ++ evs3
                        ++ [Ev.phase3Done final1]) ++ evs5) = ["running", "completed"]
                    rw [statusList_append, statusList_append, statusList_append,
                      hrun2, h3nil, hpd, h]
                    rfl
                · show statusLocked ((([Ev.status sid "running" true]
                      ++ [Ev.etapa "super_orchestrator_iniciado"]) ++ evs3
                      ++ [Ev.phase3Done final1]) ++ evs5) = true
                  rw [statusLocked_append, statusLocked_append, statusLocked_append,
                    hlk2, h3lk, hpdlk, h5lk]
                  rfl

/-- C7 — counterexample to the claim as stated: (a) calling
`execute_synchronized_analysis` twice with the same session id resets the
status of a completed session back to `running` (the completed→running
regression the claim forbids); (b) even within one call, when the
component results lack `successful_components`, the `KeyError` raised
while building the success envelope — after the session was already
marked completed — makes the critical handler re-mark it `failed`, a
completed→failed transition. -/
theorem C7_counterexample :
    statusList "s1" ((run boundaryCollab [] "s1" 0 0 "t1" []).2.1
        ++ (run boundaryCollab [] "s1" 0 0 "t1"
            (run boundaryCollab [] "s1" 0 0 "t1" []).1).2.1)
      = ["running", "completed", "running", "completed"] ∧
    statusList "s1" (run noSuccCompCollab [] "s1" 0 0 "t1" []).2.1
      = ["running", "completed", "failed"] := by
  constructor <;> rfl

/-- C7 (amended) — within one call the session-status write sequence for
the session id is one of `[running]`, `[running, completed]`,
`[running, failed]`, `[running, completed, failed]` (so it always starts
`running` and never returns to `running`), and every status write happens
under `sync_lock`.  Across calls the `running` reset of a finished
session, and the `completed, failed` sequence within one call, are real
regressions the code permits. -/
theorem C7_status_transitions (c : Collab) (data : PyDict) (sid : String) (t0 t1 : Nat)
    (ts : String) (st0 : St) :
    (statusList sid (run c data sid t0 t1 ts st0).2.1 ∈
      [["running"], ["running", "completed"], ["running", "failed"],
       ["running", "completed", "failed"]]) ∧
    statusLocked (run c data sid t0 t1 ts st0).2.1 = true := by
  have hrb := runBody_statusList c data sid t0 t1 ts st0
  unfold run
  rcases hb : runBody c data sid t0 t1 ts st0 with ⟨st, evs, r⟩
  rw [hb] at hrb
  dsimp only at hrb
  obtain ⟨hor, hlk⟩ := hrb
  have herrv : statusList sid [Ev.erro "super_orchestrator_critico"] = [] := rfl
  have herrlk : statusLocked [Ev.erro "super_orchestrator_critico"] = true := rfl
  have hflist : statusList sid [Ev.status sid "failed" true] = ["failed"] := by
    simp [statusList]
  cases r with
  | ok env =>
      refine ⟨?_, hlk⟩
      rcases hor with h | h <;> rw [h] <;> simp
  | error e =>
      try dsimp only
      rcases h2 : c.salvarErro "super_orchestrator_critico" e with e2 | u
      · refine ⟨?_, ?_⟩
        · show statusList sid (evs ++ [Ev.erro "super_orchestrator_critico"]) ∈ _
          rw [statusList_append, herrv]
          rcases hor with h | h <;> rw [h] <;> simp
        · show statusLocked (evs ++ [Ev.erro "super_orchestrator_critico"]) = true
          rw [statusLocked_append, hlk, herrlk]
          rfl
      · try dsimp only
        rcases hmk : stMark st sid (fun w =>
            { w with status := "failed", errorMsg := some e }) with e2 | st2
        · refine ⟨?_, ?_⟩
          · show statusList sid (evs ++ [Ev.erro "super_orchestrator_critico"]) ∈ _
            rw [statusList_append, herrv]
            rcases hor with h | h <;> rw [h] <;> simp
          · show statusLocked (evs ++ [Ev.erro "super_orchestrator_critico"]) = true
            rw [statusLocked_append, hlk, herrlk]
            rfl
        · refine ⟨?_, ?_⟩
          · show statusList sid ((evs ++ [Ev.erro "super_orchestrator_critico"])
                ++ [Ev.status sid "failed" true]) ∈ _
            rw [statusList_append, statusList_append, herrv, hflist]
            rcases hor with h | h <;> rw [h] <;> simp
          · show statusLocked ((evs ++ [Ev.erro "super_orchestrator_critico"])
                ++ [Ev.status sid "failed" true]) = true
            rw [statusLocked_append, statusLocked_append, hlk, herrlk]
            rfl

end V800
